import Mathlib

/-!
Verification of the annotation alignment & scoring engine of the
`autogkb-prompt-tester` repository.

The Python sources under `src/benchmarks/` are shallowly embedded below:
  * `shared_utils.py`   — string/numeric field evaluators,
  * `drug_benchmark.py` — dependency validation, variant alignment,
    operator-aware drug coverage, penalty application, evaluation driver,
  * `pheno_benchmark.py` — phenotype alignment (with Gene+Drug fallback
    pass) and the threshold-based evaluation driver,
  * `study_parameters_benchmark.py` — p-value parsing and matching.

Python machine floats are modelled as rationals (`ℚ`); Python `None` as
`Option.none`; annotation dictionaries as a fixed-field structure `Ann`
covering every key the engine reads.  The embedding-similarity
collaborator (an external pip package, out of the repository) is a
parameter `cos : String → String → Option ℚ`: `some c` models a
successful cosine-similarity call returning `c`, `none` models the
exception path that makes `semantic_similarity` fall back to the
`difflib.SequenceMatcher` ratio modelled by `ratcliffSim`.
-/

namespace AutoGKB

/-! ## Python string primitives -/

theorem length_dropWhile_le (p : Char → Bool) (l : List Char) :
    (l.dropWhile p).length ≤ l.length := by
  induction l with
  | nil => simp [List.dropWhile]
  | cons a l ih =>
    simp only [List.dropWhile]
    split
    · exact ih.trans (by simp)
    · simp

/-- Whitespace class of Python's `str.strip` and the regex `\s`
(space, tab, newline, carriage return, form feed, vertical tab). -/
def pyIsSpace (c : Char) : Bool :=
  c = ' ' || c = '\t' || c = '\n' || c = '\r' || c = '\x0c' || c = '\x0b'

/-- Python `str.strip()` on a character list. -/
def stripChars (l : List Char) : List Char :=
  ((l.dropWhile pyIsSpace).reverse.dropWhile pyIsSpace).reverse

/-- Python `str.strip()`. -/
def pyStrip (s : String) : String := ⟨stripChars s.data⟩

/-- Python `str.lower()` (ASCII case folding suffices for the engine's data). -/
def pyLower (s : String) : String := ⟨s.data.map Char.toLower⟩

/-- Replacement of every whitespace run by a single space,
Python's `re.sub(r"\s+", " ", s)`. -/
def collapseWsChars : List Char → List Char
  | [] => []
  | c :: rest =>
    if pyIsSpace c then ' ' :: collapseWsChars (rest.dropWhile pyIsSpace)
    else c :: collapseWsChars rest
termination_by l => l.length
decreasing_by
  · exact Nat.lt_succ_of_le (length_dropWhile_le pyIsSpace rest)
  · exact Nat.lt_succ_self _

/-- Python `re.sub(r"\s+", " ", s)`. -/
def collapseWs (s : String) : String := ⟨collapseWsChars s.data⟩

/-- Python `re.sub(r"\s+", "", s)`: delete all whitespace. -/
def removeWs (s : String) : String := ⟨s.data.filter (fun c => !pyIsSpace c)⟩

/-- Test whether `n` is a prefix of `h` (character lists). -/
def startsWithChars : List Char → List Char → Bool
  | [], _ => true
  | _ :: _, [] => false
  | a :: n, b :: h => a = b && startsWithChars n h

/-- Test whether `n` occurs as a contiguous substring of `h`,
Python's `n in h` on strings. -/
def containsChars (n : List Char) : List Char → Bool
  | [] => startsWithChars n []
  | h@(_ :: h') => startsWithChars n h || containsChars n h'

/-- Python string containment `n in h`. -/
def strContains (n h : String) : Bool := containsChars n.data h.data

/-- Python `str.startswith` for a two-character pattern, used for `rs` checks. -/
def startsWithStr (p s : String) : Bool := startsWithChars p.data s.data

/-! ## Decimal / scientific-notation parsing

`parse_numeric` ends in a call to Python's `float()`.  The grammar float()
accepts on the engine's cleaned numeric strings is sign, integer digits,
optional fractional part, optional exponent; it is modelled here exactly,
with the parsed value kept as a rational. -/

/-- Digit run splitter: longest digit prefix and the remainder. -/
def takeDigits : List Char → List Char × List Char
  | [] => ([], [])
  | c :: rest =>
    if c.isDigit then
      let (ds, r) := takeDigits rest
      (c :: ds, r)
    else ([], c :: rest)

theorem takeDigits_snd_le (l : List Char) : (takeDigits l).2.length ≤ l.length := by
  induction l with
  | nil => simp [takeDigits]
  | cons c rest ih =>
    simp only [takeDigits]
    split
    · simp only [List.length_cons]
      omega
    · simp

/-- Numeric value of a digit list (most significant first). -/
def digitsVal (l : List Char) : ℕ :=
  l.foldl (fun acc c => 10 * acc + (c.toNat - 48)) 0

/-- Optional sign splitter; returns `(negative?, rest)`. -/
def takeSign : List Char → Bool × List Char
  | [] => (false, [])
  | c :: rest =>
    if c = '+' then (false, rest)
    else if c = '-' then (true, rest)
    else (false, c :: rest)

/-- Exponent part of a float literal: `e`/`E`, optional sign, mandatory digits. -/
def parseExponent : List Char → Option ℤ
  | [] => some 0
  | c :: rest =>
    if c = 'e' || c = 'E' then
      let (neg, r1) := takeSign rest
      let (ds, r2) := takeDigits r1
      if ds = [] || r2 ≠ [] then none
      else some (if neg then -(digitsVal ds : ℤ) else (digitsVal ds : ℤ))
    else none

/-- Model of Python `float()` on a cleaned numeric string: sign, integer
digits, optional `.` and fractional digits, optional exponent; at least one
digit must be present in the mantissa. -/
def parseFloat (l : List Char) : Option ℚ :=
  let (neg, r0) := takeSign l
  let (ip, r1) := takeDigits r0
  let (fp, r2) :=
    match r1 with
    | c :: rest => if c = '.' then takeDigits rest else ([], c :: rest)
    | [] => ([], [])
  if ip = [] && fp = [] then none
  else
    match parseExponent r2 with
    | none => none
    | some e =>
      let mantissa : ℚ := (digitsVal ip : ℚ) + (digitsVal fp : ℚ) / ((10 : ℚ) ^ fp.length)
      let signed := if neg then -mantissa else mantissa
      some (signed * (10 : ℚ) ^ e)

/-! ## `shared_utils.py` -/

/-- Truthiness of an optional string field, Python's `if value:` on a
dictionary lookup (absent or empty string is falsy). -/
def truthy : Option String → Bool
  | none => false
  | some s => s ≠ ""

/-- Translation of `shared_utils.exact_match`. -/
def exact_match (gt_val pred_val : Option String) : ℚ :=
  match gt_val, pred_val with
  | none, none => 1
  | none, some _ => 0
  | some _, none => 0
  | some g, some p =>
    if pyLower (pyStrip g) = pyLower (pyStrip p) then 1 else 0

/-- Translation of `shared_utils.category_equal`: normalized
(whitespace-collapsed, stripped, lowercased) string equality. -/
def category_equal (a b : Option String) : ℚ :=
  match a, b with
  | none, none => 1
  | none, some _ => 0
  | some _, none => 0
  | some x, some y =>
    if collapseWs (pyLower (pyStrip x)) = collapseWs (pyLower (pyStrip y)) then 1 else 0

/-- Translation of `shared_utils.parse_numeric` on string-or-null values:
strip, then delete `,`, whitespace and `$`, then `float()`. -/
def parse_numeric (value : Option String) : Option ℚ :=
  match value with
  | none => none
  | some s =>
    parseFloat (((pyStrip s).data.filter (fun c => !(c = ',' || pyIsSpace c || c = '$'))))

/-- Core of `shared_utils.numeric_tolerance_match` after both inputs have
passed through `parse_numeric` (on already-parsed numbers `parse_numeric`
is the identity). -/
def numeric_tolerance_core (gt_num pred_num : Option ℚ)
    (exact_weight tolerance_5pct tolerance_10pct : ℚ) : ℚ :=
  match gt_num, pred_num with
  | none, none => 1
  | none, some _ => 0
  | some _, none => 0
  | some g, some p =>
    if g = 0 ∧ p = 0 then 1
    else if g = 0 ∨ p = 0 then 0
    else
      let diff := |g - p|
      let pct_diff := diff / |g|
      if diff = 0 then exact_weight
      else if pct_diff ≤ 5 / 100 then tolerance_5pct
      else if pct_diff ≤ 10 / 100 then tolerance_10pct
      else 0

/-- Translation of `shared_utils.numeric_tolerance_match`. -/
def numeric_tolerance_match (gt_val pred_val : Option String)
    (exact_weight tolerance_5pct tolerance_10pct : ℚ) : ℚ :=
  numeric_tolerance_core (parse_numeric gt_val) (parse_numeric pred_val)
    exact_weight tolerance_5pct tolerance_10pct

/-! ## `difflib.SequenceMatcher` (Ratcliff–Obershelp)

The engine's fuzzy string comparisons call
`SequenceMatcher(None, a, b).ratio()` from the Python standard library.
For the short strings involved here no junk/autojunk heuristics apply, so
`ratio` is `2·M / (|a| + |b|)` where `M` is the total size of the matching
blocks: the longest common block (earliest in `a`, then earliest in `b`)
plus, recursively, the matching blocks to its left and to its right. -/

/-- Length of the longest common prefix of two character lists. -/
def cpl : List Char → List Char → ℕ
  | a :: as, b :: bs => if a = b then cpl as bs + 1 else 0
  | _, _ => 0

/-- Candidate start positions `(i, j)` in lexicographic order. -/
def lmCandidates (la lb : ℕ) : List (ℕ × ℕ) :=
  (List.range la).flatMap (fun i => (List.range lb).map (fun j => (i, j)))

/-- Longest matching block `(i, j, size)` of two character lists: maximal
common-run length over all start pairs, ties resolved toward the earliest
start in `a`, then the earliest start in `b` (difflib's documented
tie-breaking). -/
def lmBest (a b : List Char) : ℕ × ℕ × ℕ :=
  (lmCandidates a.length b.length).foldl
    (fun best ij =>
      let k := cpl (a.drop ij.1) (b.drop ij.2)
      if best.2.2 < k then (ij.1, ij.2, k) else best)
    (0, 0, 0)

/-- Total size of all matching blocks, fuel-bounded recursion on the two
flanks of the longest matching block. -/
def matchesAux : ℕ → List Char → List Char → ℕ
  | 0, _, _ => 0
  | fuel + 1, a, b =>
    let r := lmBest a b
    if r.2.2 = 0 then 0
    else
      matchesAux fuel (a.take r.1) (b.take r.2.1) + r.2.2 +
        matchesAux fuel (a.drop (r.1 + r.2.2)) (b.drop (r.2.1 + r.2.2))

/-- Total matching-block size of `SequenceMatcher(None, a, b)`; the fuel
`|a| + |b|` dominates the recursion depth. -/
def matchesTotal (a b : List Char) : ℕ := matchesAux (a.length + b.length) a b

/-- Model of `SequenceMatcher(None, a, b).ratio()`. -/
def ratcliffSim (a b : String) : ℚ :=
  if a.data.length + b.data.length = 0 then 1
  else (2 * matchesTotal a.data b.data : ℚ) / ((a.data.length : ℚ) + (b.data.length : ℚ))

theorem cpl_le_left (a b : List Char) : cpl a b ≤ a.length := by
  induction a generalizing b with
  | nil => simp [cpl]
  | cons x xs ih =>
    cases b with
    | nil => simp [cpl]
    | cons y ys =>
      simp only [cpl]
      split
      · exact Nat.succ_le_succ (ih ys)
      · exact Nat.zero_le _

theorem cpl_le_right (a b : List Char) : cpl a b ≤ b.length := by
  induction a generalizing b with
  | nil => simp [cpl]
  | cons x xs ih =>
    cases b with
    | nil => simp [cpl]
    | cons y ys =>
      simp only [cpl]
      split
      · exact Nat.succ_le_succ (ih ys)
      · exact Nat.zero_le _

/-- Every state reached by the `lmBest` fold satisfies the block bounds. -/
theorem lmBest_bounds (a b : List Char) :
    (lmBest a b).2.2 ≤ a.length - (lmBest a b).1 ∧
      (lmBest a b).2.2 ≤ b.length - (lmBest a b).2.1 := by
  unfold lmBest
  generalize lmCandidates a.length b.length = cands
  have H : ∀ (l : List (ℕ × ℕ)) (acc : ℕ × ℕ × ℕ),
      acc.2.2 ≤ a.length - acc.1 → acc.2.2 ≤ b.length - acc.2.1 →
      ((l.foldl
        (fun best ij =>
          let k := cpl (a.drop ij.1) (b.drop ij.2)
          if best.2.2 < k then (ij.1, ij.2, k) else best) acc).2.2 ≤
          a.length - (l.foldl
            (fun best ij =>
              let k := cpl (a.drop ij.1) (b.drop ij.2)
              if best.2.2 < k then (ij.1, ij.2, k) else best) acc).1 ∧
        (l.foldl
          (fun best ij =>
            let k := cpl (a.drop ij.1) (b.drop ij.2)
            if best.2.2 < k then (ij.1, ij.2, k) else best) acc).2.2 ≤
          b.length - (l.foldl
            (fun best ij =>
              let k := cpl (a.drop ij.1) (b.drop ij.2)
              if best.2.2 < k then (ij.1, ij.2, k) else best) acc).2.1) := by
    intro l
    induction l with
    | nil => intro acc h1 h2; exact ⟨h1, h2⟩
    | cons ij rest ih =>
      intro acc h1 h2
      simp only [List.foldl_cons]
      by_cases hlt : acc.2.2 < cpl (a.drop ij.1) (b.drop ij.2)
      · simp only [hlt, if_pos]
        refine ih _ ?_ ?_
        · have := cpl_le_left (a.drop ij.1) (b.drop ij.2)
          simpa [List.length_drop] using this
        · have := cpl_le_right (a.drop ij.1) (b.drop ij.2)
          simpa [List.length_drop] using this
      · simp only [hlt, if_neg, not_false_eq_true]
        exact ih acc h1 h2
  exact H cands (0, 0, 0) (Nat.zero_le _) (Nat.zero_le _)

/-- Matching-block totals never exceed the shorter input's length. -/
theorem matchesAux_le (fuel : ℕ) :
    ∀ a b : List Char, matchesAux fuel a b ≤ min a.length b.length := by
  induction fuel with
  | zero => intro a b; simp [matchesAux]
  | succ n ih =>
    intro a b
    simp only [matchesAux]
    obtain ⟨hL, hR⟩ := lmBest_bounds a b
    set r := lmBest a b with hr
    split
    · exact Nat.zero_le _
    · have h1 := ih (a.take r.1) (b.take r.2.1)
      have h2 := ih (a.drop (r.1 + r.2.2)) (b.drop (r.2.1 + r.2.2))
      simp only [List.length_take, List.length_drop] at h1 h2
      omega

theorem matchesTotal_le (a b : List Char) :
    matchesTotal a b ≤ min a.length b.length := matchesAux_le _ a b

/-- The modelled `SequenceMatcher.ratio` always lies in `[0, 1]`. -/
theorem ratcliffSim_bounds (a b : String) :
    0 ≤ ratcliffSim a b ∧ ratcliffSim a b ≤ 1 := by
  unfold ratcliffSim
  split
  · norm_num
  · rename_i h
    have hM := matchesTotal_le a.data b.data
    have hpos : (0 : ℚ) < (a.data.length + b.data.length : ℚ) := by
      have : 0 < a.data.length + b.data.length := Nat.pos_of_ne_zero h
      exact_mod_cast this
    constructor
    · positivity
    · rw [div_le_one hpos]
      have : 2 * matchesTotal a.data b.data ≤ a.data.length + b.data.length := by
        omega
      exact_mod_cast this

/-! ## `shared_utils.py`, continued -/

/-- Translation of `shared_utils.semantic_similarity`, parameterized by the
embedding collaborator `cos` (see the module docstring): null handling,
the exact-equality short-circuit, the cosine-similarity call, and the
`SequenceMatcher` fallback on collaborator failure. -/
def semantic_similarity (cos : String → String → Option ℚ)
    (gt_val pred_val : Option String) : ℚ :=
  match gt_val, pred_val with
  | none, none => 1
  | none, some _ => 0
  | some _, none => 0
  | some g, some p =>
    let gt_str := pyStrip g
    let pred_str := pyStrip p
    if gt_str = pred_str then 1
    else
      match cos gt_str pred_str with
      | some similarity => similarity
      | none => ratcliffSim (pyLower gt_str) (pyLower pred_str)

/-- Separator class of `parse_variant_list`'s split regex `[,;|\s]+`. -/
def variantSep (c : Char) : Bool :=
  c = ',' || c = ';' || c = '|' || pyIsSpace c

/-- Consumption of the optional `(?:\+\s*)?` tail of the split regex. -/
def dropPlusWs : List Char → List Char
  | [] => []
  | c :: r => if c = '+' then r.dropWhile pyIsSpace else c :: r

theorem dropPlusWs_le (l : List Char) : (dropPlusWs l).length ≤ l.length := by
  cases l with
  | nil => simp [dropPlusWs]
  | cons x xs =>
    simp only [dropPlusWs]
    split
    · have := length_dropWhile_le pyIsSpace xs
      simp only [List.length_cons]
      omega
    · simp

/-- Splitter for the regex `[,;|\s]+(?:\+\s*)?`: each separator occurrence is
a run of `[,;|\s]`, optionally followed by one `+` and trailing whitespace. -/
def splitVariantChars (acc : List Char) : List Char → List String
  | [] => [⟨acc.reverse⟩]
  | c :: rest =>
    if variantSep c then
      -- `c` begins the separator run; the rest of the run and the optional
      -- `+`-clause are consumed from `rest`.
      ⟨acc.reverse⟩ :: splitVariantChars [] (dropPlusWs (rest.dropWhile variantSep))
    else
      splitVariantChars (c :: acc) rest
termination_by l => l.length
decreasing_by
  · have h1 := dropPlusWs_le (rest.dropWhile variantSep)
    have h2 := length_dropWhile_le variantSep rest
    simp only [List.length_cons]
    omega
  · simp [Nat.lt_succ_self]

/-- Translation of `shared_utils.parse_variant_list`: split on the
separator regex, strip the pieces, drop falsy/blank ones. -/
def parse_variant_list (variants_text : Option String) : List String :=
  match variants_text with
  | none => []
  | some s =>
    if s = "" then []
    else
      (splitVariantChars [] s.data).filterMap
        (fun t => if t ≠ "" ∧ pyStrip t ≠ "" then some (pyStrip t) else none)

/-- Translation of `shared_utils.normalize_variant`: rsIDs are lowercased
as-is, anything else has its internal whitespace removed. -/
def normalize_variant (variant : String) : String :=
  let v := pyStrip variant
  if startsWithStr "rs" (pyLower v) then pyLower v else removeWs v

/-- Translation of `shared_utils.variant_substring_match`: 1.0 iff the
normalized ground-truth string occurs inside the normalized prediction. -/
def variant_substring_match (gt_val pred_val : Option String) : ℚ :=
  match gt_val, pred_val with
  | none, none => 1
  | none, some _ => 0
  | some _, none => 0
  | some g, some p =>
    let gt_str := collapseWs (pyLower (pyStrip g))
    let pred_str := collapseWs (pyLower (pyStrip p))
    if gt_str = "" then (if pred_str = "" then 1 else 0)
    else if strContains gt_str pred_str then 1 else 0

/-- Translation of `shared_utils.compute_weighted_score`; `field_weights =
none` is the unweighted mean, otherwise weights default to 1.0 per field. -/
def compute_weighted_score (field_scores : List (String × ℚ))
    (field_weights : Option (List (String × ℚ))) : ℚ :=
  if field_scores = [] then 0
  else
    match field_weights with
    | none => (field_scores.map (·.2)).sum / field_scores.length
    | some w =>
      let weighted_sum := (field_scores.map (fun fs => fs.2 * ((w.lookup fs.1).getD 1))).sum
      let total_weight := (field_scores.map (fun fs => (w.lookup fs.1).getD 1)).sum
      if 0 < total_weight then weighted_sum / total_weight else 0

/-- Scanner for `re.finditer(r"rs\d+", s, re.IGNORECASE)`: every
non-overlapping occurrence of `rs` followed by a maximal digit run,
lowercased, in scan order (the Python code collects them into a set, whose
membership this list reproduces). -/
def findRsIds : List Char → List String
  | c1 :: c2 :: rest =>
    if c1.toLower = 'r' && c2.toLower = 's' then
      match rest with
      | c3 :: tl =>
        if c3.isDigit then
          let ds := c3 :: (takeDigits tl).1
          -- The scan resumes at `tl`; the leading digit characters still
          -- in `tl` cannot start an `rs` match, so this is the same scan
          -- position as resuming after the matched digits.
          (⟨'r' :: 's' :: ds.map Char.toLower⟩ : String) :: findRsIds tl
        else findRsIds (c2 :: c3 :: tl)
      | [] => []
    else findRsIds (c2 :: rest)
  | _ => []
termination_by l => l.length
decreasing_by
  all_goals simp [List.length_cons]
  all_goals omega

/-! ## Annotation records

An annotation is a JSON object; the engine reads the fixed key set below.
Fields hold `none` when the key is absent and `some s` for a string value.
The two `*_normalized` keys are objects `{"variant_id": …}` /
`{"drug_id": …}` produced by the excluded normalization layer; only the
contained identifier is read, so it is stored directly.  The marker key
`_expanded_from_multi_variant` (set by expansion, and part of dictionary
equality) is a `Bool`. -/

structure Ann where
  variantHaplotypes : Option String := none
  gene : Option String := none
  drugs : Option String := none
  pmid : Option String := none
  phenotypeCategory : Option String := none
  significance : Option String := none
  alleles : Option String := none
  specialtyPopulation : Option String := none
  metabolizerTypes : Option String := none
  isPlural : Option String := none
  isIsNotAssociated : Option String := none
  directionOfEffect : Option String := none
  pdPkTerms : Option String := none
  multipleDrugsAndOr : Option String := none
  populationTypes : Option String := none
  populationPhenotypes : Option String := none
  multiplePhenotypesAndOr : Option String := none
  comparisonAlleles : Option String := none
  comparisonMetabolizerTypes : Option String := none
  phenotype : Option String := none
  whenTreatedWith : Option String := none
  geneProduct : Option String := none
  functionalTerms : Option String := none
  assayType : Option String := none
  cellType : Option String := none
  variantAnnotationId : Option String := none
  variantIdNorm : Option String := none
  drugIdNorm : Option String := none
  expandedFlag : Bool := false
  deriving DecidableEq, Repr

/-- Dictionary lookup `ann.get(field)` for the string-valued keys the
field-evaluator tables read. -/
def Ann.get (a : Ann) (field : String) : Option String :=
  if field = "Variant/Haplotypes" then a.variantHaplotypes
  else if field = "Gene" then a.gene
  else if field = "Drug(s)" then a.drugs
  else if field = "PMID" then a.pmid
  else if field = "Phenotype Category" then a.phenotypeCategory
  else if field = "Significance" then a.significance
  else if field = "Alleles" then a.alleles
  else if field = "Specialty Population" then a.specialtyPopulation
  else if field = "Metabolizer types" then a.metabolizerTypes
  else if field = "isPlural" then a.isPlural
  else if field = "Is/Is Not associated" then a.isIsNotAssociated
  else if field = "Direction of effect" then a.directionOfEffect
  else if field = "PD/PK terms" then a.pdPkTerms
  else if field = "Multiple drugs And/or" then a.multipleDrugsAndOr
  else if field = "Population types" then a.populationTypes
  else if field = "Population Phenotypes or diseases" then a.populationPhenotypes
  else if field = "Multiple phenotypes or diseases And/or" then a.multiplePhenotypesAndOr
  else if field = "Comparison Allele(s) or Genotype(s)" then a.comparisonAlleles
  else if field = "Comparison Metabolizer types" then a.comparisonMetabolizerTypes
  else if field = "Phenotype" then a.phenotype
  else if field = "When treated with/exposed to/when assayed with" then a.whenTreatedWith
  else if field = "Gene/gene product" then a.geneProduct
  else if field = "Functional terms" then a.functionalTerms
  else if field = "Assay type" then a.assayType
  else if field = "Cell type" then a.cellType
  else if field = "Variant Annotation ID" then a.variantAnnotationId
  else none

/-- Translation of `shared_utils.get_normalized_variant_id`. -/
def get_normalized_variant_id (a : Ann) : Option String := a.variantIdNorm

/-- Translation of `shared_utils.get_normalized_drug_id`. -/
def get_normalized_drug_id (a : Ann) : Option String := a.drugIdNorm

/-! ## `drug_benchmark.py`: dependency validation -/

/-- Translation of `drug_benchmark.validate_drug_dependencies`. -/
def validate_drug_dependencies (a : Ann) : List String :=
  let issues1 : List String :=
    if truthy a.directionOfEffect ∧ a.isIsNotAssociated ≠ some "Associated with" then
      ["Direction of effect requires 'Associated with' status"]
    else []
  let issues2 : List String :=
    if truthy a.comparisonAlleles ∧ ¬ truthy a.variantHaplotypes then
      ["Variant/Haplotypes required when Comparison Allele(s) is specified"]
    else []
  let issues3 : List String :=
    if truthy a.multipleDrugsAndOr ∧ ¬ truthy a.drugs then
      ["Drug(s) field should be present when Multiple drugs And/or is specified"]
    else []
  issues1 ++ issues2 ++ issues3

/-! ## Variant expansion and alignment

`expand_annotations_by_variant` (duplicated verbatim in
`drug_benchmark.py`, `pheno_benchmark.py` and `fa_benchmark.py`) and the
variant aligner shared — up to the phenotype benchmark's extra Gene+Drug
fallback pass and its bidirectional tier-3 test — by the three
benchmarks. -/

/-- Translation of `expand_annotations_by_variant` /
`expand_pheno_annotations_by_variant`. -/
def expand_annotations_by_variant (anns : List Ann) : List Ann :=
  anns.flatMap (fun ann =>
    let tokens := parse_variant_list ann.variantHaplotypes
    if tokens.length ≤ 1 then [ann]
    else tokens.map (fun tok =>
      { ann with variantHaplotypes := some (normalize_variant tok), expandedFlag := true }))

/-- Prediction-index entry `(variant_id, rsids, raw_norm, rec)` built by
each aligner before matching. -/
structure PredEntry where
  variantId : Option String
  rsids : List String
  rawNorm : String
  record : Ann
  deriving DecidableEq, Repr

/-- Construction of the prediction index. -/
def buildPredIndex (pred_expanded : List Ann) : List PredEntry :=
  pred_expanded.map (fun r =>
    let raw := pyStrip (r.variantHaplotypes.getD "")
    { variantId := get_normalized_variant_id r
      rsids := findRsIds raw.data
      rawNorm := pyLower (normalize_variant raw)
      record := r })

/-- Matched pair, tracking the claimed prediction index. -/
structure MatchedPair where
  gtRec : Ann
  predIdx : ℕ
  predRec : Ann
  key : String
  deriving DecidableEq, Repr

/-- First unclaimed prediction-index entry satisfying `p`, in encounter
order — the common shape of every tier's inner loop. -/
def findUnclaimed (pi : List (ℕ × PredEntry)) (claimed : List ℕ)
    (p : PredEntry → Bool) : Option (ℕ × PredEntry) :=
  pi.find? (fun ie => !(claimed.contains ie.1) && p ie.2)

/-- Tier-1 test: prediction carries a truthy resolved variant id equal to
the ground truth's. -/
def tier1Cond (gtVariantId : String) (e : PredEntry) : Bool :=
  truthy e.variantId && (e.variantId == some gtVariantId)

/-- Tier-2 test: the rsID sets intersect. -/
def tier2Cond (gtRs : List String) (e : PredEntry) : Bool :=
  e.rsids.any (fun r => gtRs.contains r)

/-- Tier-3 test of `drug_benchmark.align_by_variant` and
`fa_benchmark.align_fa_annotations_by_variant`: the normalized
ground-truth string occurs inside the normalized prediction string
(one direction only). -/
def drugTier3Cond (gtNorm : String) (e : PredEntry) : Bool :=
  strContains gtNorm e.rawNorm

/-- Tier-3 test of `pheno_benchmark.align_pheno_annotations_by_variant`:
containment in either direction. -/
def phenoTier3Cond (gtNorm : String) (e : PredEntry) : Bool :=
  strContains gtNorm e.rawNorm || strContains e.rawNorm gtNorm

/-- Normalized ground-truth variant data read at the top of each aligner's
loop body: `(gt_norm, gt_rs, gt_variant_id)`. -/
def gtVariantData (gt_rec : Ann) : String × List String × Option String :=
  let gt_raw := pyStrip (gt_rec.variantHaplotypes.getD "")
  (pyLower (normalize_variant gt_raw), findRsIds gt_raw.data, get_normalized_variant_id gt_rec)

/-- Display key for a variant-tier match: variant id if truthy, else first
rsID, else the normalized string. -/
def displayKey (gtNorm : String) (gtRs : List String) (gtVariantId : Option String) : String :=
  if truthy gtVariantId then gtVariantId.getD ""
  else match gtRs with
    | r :: _ => r
    | [] => gtNorm

/-- Loop body of the drug/FA aligner for one ground-truth record: tiers 1–3
in priority order over the unclaimed prediction entries (the source's
`if match is None and …` cascade is the option-chain below). -/
def matchStepDrug (pi : List (ℕ × PredEntry)) (claimed : List ℕ) (gt_rec : Ann) :
    Option (ℕ × PredEntry) :=
  let d := gtVariantData gt_rec
  (if truthy d.2.2 then findUnclaimed pi claimed (tier1Cond (d.2.2.getD "")) else none) <|>
    ((if d.2.1 ≠ [] then findUnclaimed pi claimed (tier2Cond d.2.1) else none) <|>
      (if d.1 ≠ "" then findUnclaimed pi claimed (drugTier3Cond d.1) else none))

/-- One iteration of the variant-tier loop: on a match, the pair is
appended and its prediction index becomes claimed. -/
def alignAppend (gt_rec : Ann) (ie : ℕ × PredEntry) (st : List MatchedPair) :
    List MatchedPair :=
  let d := gtVariantData gt_rec
  st ++ [{ gtRec := gt_rec, predIdx := ie.1, predRec := ie.2.record,
           key := displayKey d.1 d.2.1 d.2.2 }]

/-- Variant-tier loop shared by all three aligners, recursing over the
expanded ground-truth records with the accumulated matches as state. -/
def alignGo (step : List (ℕ × PredEntry) → List ℕ → Ann → Option (ℕ × PredEntry))
    (pi : List (ℕ × PredEntry)) (st : List MatchedPair) : List Ann → List MatchedPair
  | [] => st
  | g :: gs =>
    match step pi (st.map (·.predIdx)) g with
    | some ie => alignGo step pi (alignAppend g ie st) gs
    | none => alignGo step pi st gs

/-- Variant-tier pass shared by all three aligners: loop over the expanded
ground truth, claiming at most one prediction per record. -/
def alignVariantPass (step : List (ℕ × PredEntry) → List ℕ → Ann → Option (ℕ × PredEntry))
    (pi : List (ℕ × PredEntry)) (gt_expanded : List Ann) : List MatchedPair :=
  alignGo step pi [] gt_expanded

/-- Translation of `drug_benchmark.align_by_variant` (the FA aligner
`align_fa_annotations_by_variant` is the same code line for line):
returns `(aligned_gt, aligned_pred, display_keys, unmatched_gt,
unmatched_pred)`. -/
def align_by_variant (ground_truth_list predictions_list : List Ann) :
    List Ann × List Ann × List String × List Ann × List Ann :=
  let gt_expanded := expand_annotations_by_variant ground_truth_list
  let pred_expanded := expand_annotations_by_variant predictions_list
  let pi := (buildPredIndex pred_expanded).enum
  let pairs := alignVariantPass matchStepDrug pi gt_expanded
  let aligned_gt := pairs.map (·.gtRec)
  let aligned_pred := pairs.map (·.predRec)
  let display_keys := pairs.map (·.key)
  let unmatched_gt := gt_expanded.filter (fun r => !(aligned_gt.contains r))
  let unmatched_pred := (pi.filter (fun ie => !((pairs.map (·.predIdx)).contains ie.1))).map (·.2.record)
  (aligned_gt, aligned_pred, display_keys, unmatched_gt, unmatched_pred)

/-! ## `drug_benchmark.py`: drug-list parsing and coverage -/

/-- Word character of the regex `\b` boundary (ASCII). -/
def isWordChar (c : Char) : Bool := c.isAlphanum || c = '_'

/-- Translation of `drug_benchmark.normalize_drug_name`: lowercase, strip,
hyphens to spaces, slashes padded with spaces, whitespace collapsed. -/
def normalize_drug_name (name : String) : String :=
  let n := pyStrip (pyLower name)
  let n : List Char := n.data.flatMap (fun c =>
    if c = '-' then [' '] else if c = '/' then [' ', '/', ' '] else [c])
  collapseWs ⟨n⟩

/-- Splitter for `re.split(r",|\bor\b", value, flags=re.IGNORECASE)`:
split on commas and on the word `or` delimited by word boundaries.
`prev` is the character preceding the scan position (for the left
boundary). -/
def splitDrugChars (prev : Option Char) (acc : List Char) : List Char → List String
  | [] => [⟨acc.reverse⟩]
  | c :: rest =>
    if c = ',' then ⟨acc.reverse⟩ :: splitDrugChars (some c) [] rest
    else
      match rest with
      | c2 :: rest' =>
        if (c.toLower = 'o' && c2.toLower = 'r') &&
            (match prev with | none => true | some q => !isWordChar q) &&
            (match rest' with | [] => true | q :: _ => !isWordChar q) then
          ⟨acc.reverse⟩ :: splitDrugChars (some c2) [] rest'
        else splitDrugChars (some c) (c :: acc) (c2 :: rest')
      | [] => splitDrugChars (some c) (c :: acc) []

/-- Order-preserving, first-occurrence deduplication (Python's
`seen`-set idiom in `parse_drug_list`). -/
def dedupKeepFirst (seen : List String) : List String → List String
  | [] => []
  | t :: ts => if seen.contains t then dedupKeepFirst seen ts
               else t :: dedupKeepFirst (t :: seen) ts

/-- Translation of `drug_benchmark.parse_drug_list`: split on commas or the
word `or`, normalize, drop empties, deduplicate preserving order. -/
def parse_drug_list (value : Option String) : List String :=
  match value with
  | none => []
  | some s =>
    if s = "" then []
    else
      dedupKeepFirst []
        ((splitDrugChars none [] s.data).filterMap (fun part =>
          let token := normalize_drug_name part
          if token ≠ "" then some token else none))

/-- Canonical phenotype-group labels special-cased by the drug benchmark's
variant matcher. -/
def phenotype_group_labels : List String :=
  ["poor metabolizers", "intermediate metabolizers", "extensive metabolizers",
   "ultra-rapid metabolizers", "intermediate activity", "reduced function",
   "normal function"]

/-- Translation of
`drug_benchmark.variant_substring_match_with_phenotype_groups`. -/
def variant_substring_match_with_phenotype_groups (gt_val pred_val : Option String) : ℚ :=
  match gt_val, pred_val with
  | none, none => 1
  | none, some _ => 0
  | some _, none => 0
  | some g, some p =>
    let gt_str := collapseWs (pyLower (pyStrip g))
    let pred_str := collapseWs (pyLower (pyStrip p))
    if phenotype_group_labels.contains gt_str ∨ phenotype_group_labels.contains pred_str then
      (if gt_str = pred_str then 1 else 0)
    else if gt_str = "" then (if pred_str = "" then 1 else 0)
    else if strContains gt_str pred_str then 1 else 0

/-- Token matcher of `drugs_coverage`: exact equality or a
`SequenceMatcher` ratio of at least 0.85. -/
def token_match (g p : String) : Bool :=
  g = p || decide (ratcliffSim g p ≥ 17 / 20)

/-- Coverage vector: which ground-truth tokens have a matching prediction
token. -/
def coveredList (gt_tokens pred_tokens : List String) : List Bool :=
  gt_tokens.map (fun gtok => pred_tokens.any (fun ptok => token_match gtok ptok))

/-- Python's `a or b or "or"` idiom: first truthy value. -/
def firstTruthy (a b : Option String) (dflt : String) : String :=
  if truthy a then a.getD "" else if truthy b then b.getD "" else dflt

/-- Translation of `drug_benchmark.drugs_coverage`: operator-aware
coverage for the `Drug(s)` field, driven by `Multiple drugs And/or`. -/
def drugs_coverage (gt prd : Ann) : ℚ :=
  let gt_tokens := parse_drug_list gt.drugs
  let pred_tokens := parse_drug_list prd.drugs
  if gt_tokens = [] ∧ pred_tokens = [] then 1
  else if gt_tokens = [] ∨ pred_tokens = [] then 0
  else
    let operator := pyLower (pyStrip (firstTruthy gt.multipleDrugsAndOr prd.multipleDrugsAndOr "or"))
    let covered := coveredList gt_tokens pred_tokens
    if operator = "and" then
      (if covered.all id then 1 else (covered.count true : ℚ) / (covered.length : ℚ))
    else
      let frac := (covered.count true : ℚ) / (covered.length : ℚ)
      max frac (if covered.any id then 1 else 0)

/-! ## `drug_benchmark.py`: evaluation driver -/

/-- Field-to-evaluator table of `evaluate_drug_annotations`
(`Drug(s)` is handled separately by `drugs_coverage`). -/
def drug_field_evaluators (cos : String → String → Option ℚ) :
    List (String × (Option String → Option String → ℚ)) :=
  [("Variant/Haplotypes", variant_substring_match_with_phenotype_groups),
   ("Gene", semantic_similarity cos),
   ("PMID", exact_match),
   ("Phenotype Category", category_equal),
   ("Significance", category_equal),
   ("Alleles", semantic_similarity cos),
   ("Specialty Population", semantic_similarity cos),
   ("Metabolizer types", semantic_similarity cos),
   ("isPlural", category_equal),
   ("Is/Is Not associated", category_equal),
   ("Direction of effect", category_equal),
   ("PD/PK terms", semantic_similarity cos),
   ("Multiple drugs And/or", category_equal),
   ("Population types", semantic_similarity cos),
   ("Population Phenotypes or diseases", semantic_similarity cos),
   ("Multiple phenotypes or diseases And/or", category_equal),
   ("Comparison Allele(s) or Genotype(s)", semantic_similarity cos),
   ("Comparison Metabolizer types", semantic_similarity cos)]

/-- Affected-field classification of one dependency issue in
`evaluate_drug_annotations` (substring tests on the issue text;
unclassified issues affect every field). -/
def drugAffectedFields (allFields : List String) (issue : String) : List String :=
  if strContains "Direction" issue || strContains "Associated" issue then
    ["Direction of effect", "Is/Is Not associated"]
  else if strContains "Variant" issue || strContains "Comparison" issue then
    ["Variant/Haplotypes", "Comparison Allele(s) or Genotype(s)"]
  else if strContains "Drug" issue || strContains "Multiple drugs" issue then
    ["Drug(s)"]
  else allFields

/-- Penalty metadata recorded with each penalized sample
(`penalty_info`; the display-only `issues_by_field` map is omitted). -/
structure PenaltyRecord where
  total_penalty : ℚ := 0
  penalized_fields : List (String × ℚ × ℚ) := []
  deriving DecidableEq, Repr

/-- Translation of the penalty block of `evaluate_drug_annotations`
(its copy in `fa_benchmark._evaluate_functional_analysis_pairs` differs
only in the issue-classification table): `penalty = min(0.05·n, 0.3)`,
each affected field's score multiplied once by `(1 − penalty)`, with the
pre-penalty value recorded in `penalized_fields` as
`(original, penalized)`. -/
def applyDrugPenalties (field_scores : List (String × ℚ)) (issues : List String) :
    List (String × ℚ) × PenaltyRecord :=
  if issues = [] then (field_scores, {})
  else
    let total_penalty := min ((issues.length : ℚ) * (5 / 100)) (3 / 10)
    let allFields := field_scores.map (·.1)
    let fields_to_penalize := dedupKeepFirst [] (issues.flatMap (drugAffectedFields allFields))
    let penalized := field_scores.map (fun fs =>
      if fields_to_penalize.contains fs.1 then (fs.1, fs.2 * (1 - total_penalty)) else fs)
    let record := field_scores.filterMap (fun fs =>
      if fields_to_penalize.contains fs.1 then
        some (fs.1, (fs.2, fs.2 * (1 - total_penalty)))
      else none)
    (penalized, { total_penalty := total_penalty, penalized_fields := record })

/-- Per-pair sample result (`field_values` is display-only and omitted). -/
structure SampleResult where
  sample_id : ℕ
  field_scores : List (String × ℚ)
  dependency_issues : List String
  penalty_info : PenaltyRecord
  deriving DecidableEq, Repr

/-- Loop body of `evaluate_drug_annotations` over one aligned pair:
field scoring, dependency validation, penalty application. -/
def drugSample (cos : String → String → Option ℚ) (i : ℕ) (g p : Ann) : SampleResult :=
  let fs0 := (drug_field_evaluators cos).map (fun fe => (fe.1, fe.2 (g.get fe.1) (p.get fe.1)))
      ++ [("Drug(s)", drugs_coverage g p)]
  let issues := validate_drug_dependencies p
  let applied := applyDrugPenalties fs0 issues
  { sample_id := i, field_scores := applied.1,
    dependency_issues := issues, penalty_info := applied.2 }

/-- Per-field aggregate `{mean_score, scores}`. -/
structure FieldEntry where
  mean_score : ℚ
  scores : List ℚ
  deriving DecidableEq, Repr

/-- Evaluation result dictionary.  Keys that some return paths omit are
`Option`-valued, `none` meaning the key is absent from the returned
dictionary. -/
structure EvalResult where
  total_samples : ℕ
  field_scores : List (String × FieldEntry)
  overall_score : ℚ
  detailed_results : List SampleResult
  aligned_variants : Option (List String) := none
  unmatched_ground_truth : Option (List Ann) := none
  unmatched_predictions : Option (List Ann) := none
  status : Option String := none
  deriving Repr

/-- Translation of `drug_benchmark.evaluate_drug_annotations` on the two
annotation lists (the top-level arity check rejecting malformed `samples`
raises and is outside the result model).  The initial per-field score
loops (source lines 311–327) are overwritten key-for-key by the recompute
loop (lines 393–398) and are therefore not repeated; the zero-extension
for unmatched ground truth (lines 400–407) is written unconditionally
since appending zero copies is the identity. -/
def evaluate_drug_annotations (cos : String → String → Option ℚ)
    (gt_raw pred_raw : List Ann) (field_weights : Option (List (String × ℚ))) : EvalResult :=
  let aligned := align_by_variant gt_raw pred_raw
  let gt_list := aligned.1
  let pred_list := aligned.2.1
  let display_keys := aligned.2.2.1
  let unmatched_gt := aligned.2.2.2.1
  let unmatched_pred := aligned.2.2.2.2
  if gt_list = [] then
    { total_samples := 0, field_scores := [], overall_score := 0, detailed_results := [],
      aligned_variants := some [], unmatched_ground_truth := some unmatched_gt,
      unmatched_predictions := some unmatched_pred }
  else
    let pairs := gt_list.zip pred_list
    let samples := pairs.enum.map (fun ip => drugSample cos ip.1 ip.2.1 ip.2.2)
    let allFieldKeys := (drug_field_evaluators cos).map (·.1) ++ ["Drug(s)"]
    let num_unmatched := unmatched_gt.length
    let field_scores := allFieldKeys.map (fun f =>
      let scores := samples.map (fun s => (s.field_scores.lookup f).getD 0)
          ++ List.replicate num_unmatched 0
      ((f, { mean_score := scores.sum / (scores.length : ℚ), scores := scores }) : String × FieldEntry))
    let field_mean_scores := field_scores.map (fun fe => (fe.1, fe.2.mean_score))
    { total_samples := gt_list.length + num_unmatched,
      field_scores := field_scores,
      overall_score := compute_weighted_score field_mean_scores field_weights,
      detailed_results := samples,
      aligned_variants := some display_keys,
      unmatched_ground_truth := some unmatched_gt,
      unmatched_predictions := some unmatched_pred }

/-! ## `fa_benchmark.py`: dependency validation and penalties -/

/-- Full match against `^rs\d+$` with `re.IGNORECASE`
(`fa_benchmark.validate_external_data`). -/
def isRsidFormat (s : String) : Bool :=
  match s.data with
  | c1 :: c2 :: rest =>
    c1.toLower = 'r' && c2.toLower = 's' && rest ≠ [] && rest.all Char.isDigit
  | _ => false

/-- Character class `[A-Z0-9]` of the star-allele and gene patterns. -/
def isUpperOrDigit (c : Char) : Bool := c.isUpper || c.isDigit

/-- Full match against `^[A-Z0-9]+\*\d+$` (case-sensitive). -/
def isStarAlleleFormat (s : String) : Bool :=
  let head := s.data.takeWhile isUpperOrDigit
  let rest := s.data.dropWhile isUpperOrDigit
  head ≠ [] &&
    (match rest with
      | c :: ds => c = '*' && ds ≠ [] && ds.all Char.isDigit
      | [] => false)

/-- Full match against `^[A-Z0-9]+$`. -/
def isGeneFormat (s : String) : Bool :=
  s.data ≠ [] && s.data.all isUpperOrDigit

/-- Translation of `fa_benchmark.validate_external_data`: format checks on
the variant tokens (rsIDs and star alleles) and the gene symbol.  The
token generator `(v.strip() for v in variant_list if v.strip())` over the
same split regex is the `filterMap` below. -/
def validate_external_data (a : Ann) : List String :=
  let variants := a.variantHaplotypes.getD ""
  let issues1 : List String :=
    if variants ≠ "" then
      ((splitVariantChars [] variants.data).filterMap (fun v =>
        if pyStrip v ≠ "" then some (pyStrip v) else none)).flatMap (fun variant =>
          if startsWithStr "rs" (pyLower variant) then
            (if ¬ isRsidFormat variant then ["Invalid rsID format: " ++ variant] else [])
          else if strContains "*" variant then
            (if ¬ isStarAlleleFormat variant then
              ["Invalid star allele format: " ++ variant] else [])
          else [])
    else []
  let gene := a.gene.getD ""
  let issues2 : List String :=
    if gene ≠ "" ∧ ¬ isGeneFormat gene then ["Invalid gene name format: " ++ gene] else []
  issues1 ++ issues2

/-- Translation of `fa_benchmark.validate_field_dependencies`. -/
def validate_field_dependencies (a : Ann) : List String :=
  (if truthy a.geneProduct ∧ ¬ truthy a.gene then
    ["Gene field required when Gene/gene product is specified"] else []) ++
  (if truthy a.comparisonAlleles ∧ ¬ truthy a.variantHaplotypes then
    ["Variant/Haplotypes required when Comparison Allele(s) is specified"] else []) ++
  (if truthy a.directionOfEffect ∧ a.isIsNotAssociated ≠ some "Associated with" then
    ["Direction of effect requires 'Associated with' status"] else []) ++
  (if truthy a.functionalTerms ∧ ¬ truthy a.geneProduct then
    ["Gene/gene product recommended when Functional terms is specified"] else [])

/-- Translation of `fa_benchmark.validate_annotation_consistency`. -/
def validate_annotation_consistency (a : Ann) (study_params : List Ann) : List String :=
  (if truthy a.variantAnnotationId ∧
      ¬ study_params.any (fun sp => sp.variantAnnotationId == a.variantAnnotationId) then
    ["Variant Annotation ID " ++ a.variantAnnotationId.getD "" ++
      " not found in study_parameters"] else []) ++
  (let study_pmids := (study_params.filter (fun sp => truthy sp.pmid)).map (·.pmid)
   if truthy a.pmid ∧ study_params ≠ [] ∧ study_pmids ≠ [] ∧
       ¬ study_pmids.contains a.pmid then
    ["PMID " ++ a.pmid.getD "" ++ " inconsistent with study parameters"] else [])

/-- Translation of `fa_benchmark.validate_all_dependencies`; `study_params
= none` (or an empty list) skips the consistency checks, as Python's
`if study_params:` does. -/
def validate_all_dependencies (a : Ann) (study_params : Option (List Ann)) : List String :=
  validate_external_data a ++ validate_field_dependencies a ++
    (match study_params with
      | some sp => if sp ≠ [] then validate_annotation_consistency a sp else []
      | none => [])

/-- Affected-field classification of one dependency issue in
`_evaluate_functional_analysis_pairs` (substring tests on the issue text,
in the FA benchmark's order; unclassified issues affect every field). -/
def faAffectedFields (allFields : List String) (issue : String) : List String :=
  if strContains "Gene" issue || strContains "gene" issue then
    ["Gene", "Gene/gene product"]
  else if strContains "Variant" issue || strContains "variant" issue then
    ["Variant/Haplotypes", "Comparison Allele(s) or Genotype(s)"]
  else if strContains "Direction" issue || strContains "Associated" issue then
    ["Direction of effect", "Is/Is Not associated"]
  else if strContains "Functional" issue then
    ["Functional terms", "Gene/gene product"]
  else if strContains "rsID" issue || strContains "star allele" issue then
    ["Variant/Haplotypes"]
  else allFields

/-- Translation of the penalty block of
`_evaluate_functional_analysis_pairs` (fa_benchmark.py lines 422–457):
identical to the drug benchmark's block except for the FA
issue-classification table. -/
def applyFaPenalties (field_scores : List (String × ℚ)) (issues : List String) :
    List (String × ℚ) × PenaltyRecord :=
  if issues = [] then (field_scores, {})
  else
    let total_penalty := min ((issues.length : ℚ) * (5 / 100)) (3 / 10)
    let allFields := field_scores.map (·.1)
    let fields_to_penalize := dedupKeepFirst [] (issues.flatMap (faAffectedFields allFields))
    let penalized := field_scores.map (fun fs =>
      if fields_to_penalize.contains fs.1 then (fs.1, fs.2 * (1 - total_penalty)) else fs)
    let record := field_scores.filterMap (fun fs =>
      if fields_to_penalize.contains fs.1 then
        some (fs.1, (fs.2, fs.2 * (1 - total_penalty)))
      else none)
    (penalized, { total_penalty := total_penalty, penalized_fields := record })

/-! ## `pheno_benchmark.py`: alignment -/

/-- Loop body of the phenotype aligner's variant pass: identical to
`matchStepDrug` except that tier 3 accepts containment in either
direction. -/
def matchStepPheno (pi : List (ℕ × PredEntry)) (claimed : List ℕ) (gt_rec : Ann) :
    Option (ℕ × PredEntry) :=
  let d := gtVariantData gt_rec
  (if truthy d.2.2 then findUnclaimed pi claimed (tier1Cond (d.2.2.getD "")) else none) <|>
    ((if d.2.1 ≠ [] then findUnclaimed pi claimed (tier2Cond d.2.1) else none) <|>
      (if d.1 ≠ "" then findUnclaimed pi claimed (phenoTier3Cond d.1) else none))

/-- Normalized Gene value read by the phenotype fallback pass:
`str(rec.get("Gene", "")).strip().lower()`. -/
def fallbackGene (a : Ann) : String := pyLower (pyStrip (a.gene.getD ""))

/-- Normalized Drug(s) value read by the phenotype fallback pass. -/
def fallbackDrug (a : Ann) : String := pyLower (pyStrip (a.drugs.getD ""))

/-- Gene+Drug fallback test of the phenotype aligner's second pass. -/
def phenoFallbackCond (gt_gene gt_drug : String) (gt_drug_id : Option String)
    (e : PredEntry) : Bool :=
  let pred_gene := fallbackGene e.record
  let pred_drug := fallbackDrug e.record
  let pred_drug_id := get_normalized_drug_id e.record
  let gene_match := gt_gene ≠ "" && pred_gene ≠ "" && gt_gene == pred_gene
  let drug_match :=
    if truthy gt_drug_id && truthy pred_drug_id then gt_drug_id == pred_drug_id
    else if gt_drug = "" && pred_drug = "" then true
    else if gt_drug ≠ "" && pred_drug ≠ "" then gt_drug == pred_drug
    else false
  gene_match && drug_match

/-- Second-pass loop body of the phenotype aligner: ground-truth records
not already aligned (by dictionary equality) try a Gene+Drug match among
still-unclaimed predictions. -/
def phenoFallbackStep (pi : List (ℕ × PredEntry)) (st : List MatchedPair)
    (gt_rec : Ann) : List MatchedPair :=
  if (st.map (·.gtRec)).contains gt_rec then st
  else
    let gt_gene := fallbackGene gt_rec
    let gt_drug := fallbackDrug gt_rec
    let gt_drug_id := get_normalized_drug_id gt_rec
    if gt_gene = "" ∧ gt_drug = "" then st
    else
      match findUnclaimed pi (st.map (·.predIdx)) (phenoFallbackCond gt_gene gt_drug gt_drug_id) with
      | some (idx, e) =>
        st ++ [{ gtRec := gt_rec, predIdx := idx, predRec := e.record,
                 key := if gt_drug ≠ "" then gt_gene ++ "+" ++ gt_drug else gt_gene }]
      | none => st

/-- Matched pairs of the phenotype aligner: the variant pass followed by
the Gene+Drug fallback pass over the expanded ground truth. -/
def phenoAlignPairs (ground_truth_list predictions_list : List Ann) : List MatchedPair :=
  let gt_expanded := expand_annotations_by_variant ground_truth_list
  let pi := (buildPredIndex (expand_annotations_by_variant predictions_list)).enum
  gt_expanded.foldl (phenoFallbackStep pi) (alignVariantPass matchStepPheno pi gt_expanded)

/-- Translation of `pheno_benchmark.align_pheno_annotations_by_variant`
(its `expand_pheno_annotations_by_variant` is the common expansion code):
variant pass, then Gene+Drug fallback pass, then unmatched collection. -/
def align_pheno_annotations_by_variant (ground_truth_list predictions_list : List Ann) :
    List Ann × List Ann × List String × List Ann × List Ann :=
  let gt_expanded := expand_annotations_by_variant ground_truth_list
  let pred_expanded := expand_annotations_by_variant predictions_list
  let pi := (buildPredIndex pred_expanded).enum
  let pairs := phenoAlignPairs ground_truth_list predictions_list
  let aligned_gt := pairs.map (·.gtRec)
  let aligned_pred := pairs.map (·.predRec)
  let display_keys := pairs.map (·.key)
  let unmatched_gt := gt_expanded.filter (fun r => !(aligned_gt.contains r))
  let unmatched_pred := (pi.filter (fun ie => !((pairs.map (·.predIdx)).contains ie.1))).map (·.2.record)
  (aligned_gt, aligned_pred, display_keys, unmatched_gt, unmatched_pred)

/-! ## `pheno_benchmark.py`: evaluation driver -/

/-- `PhenotypeAnnotationBenchmark.CORE_FIELDS`. -/
def CORE_FIELDS : List String :=
  ["Variant/Haplotypes", "Gene", "Drug(s)", "Phenotype Category", "Alleles",
   "Is/Is Not associated", "Direction of effect", "Phenotype",
   "When treated with/exposed to/when assayed with",
   "Comparison Allele(s) or Genotype(s)"]

/-- `PhenotypeAnnotationBenchmark.DEFAULT_FIELD_WEIGHTS`. -/
def DEFAULT_FIELD_WEIGHTS : List (String × ℚ) :=
  [("Phenotype", 2), ("Drug(s)", 3 / 2), ("Direction of effect", 2),
   ("Alleles", 3 / 2), ("Is/Is Not associated", 1), ("Variant/Haplotypes", 1),
   ("Gene", 1), ("Phenotype Category", 1 / 2),
   ("When treated with/exposed to/when assayed with", 1 / 2),
   ("Comparison Allele(s) or Genotype(s)", 1)]

/-- Evaluator table of `PhenotypeAnnotationBenchmark._get_field_evaluator`. -/
def pheno_field_evaluators (cos : String → String → Option ℚ) :
    List (String × (Option String → Option String → ℚ)) :=
  [("Variant/Haplotypes", variant_substring_match),
   ("Gene", semantic_similarity cos),
   ("Drug(s)", semantic_similarity cos),
   ("Phenotype Category", category_equal),
   ("Alleles", semantic_similarity cos),
   ("Is/Is Not associated", category_equal),
   ("Direction of effect", category_equal),
   ("Phenotype", semantic_similarity cos),
   ("When treated with/exposed to/when assayed with", semantic_similarity cos),
   ("Comparison Allele(s) or Genotype(s)", semantic_similarity cos)]

/-- Translation of `_get_field_evaluator`: table lookup defaulting to
`semantic_similarity`. -/
def pheno_get_field_evaluator (cos : String → String → Option ℚ) (field : String) :
    Option String → Option String → ℚ :=
  ((pheno_field_evaluators cos).lookup field).getD (semantic_similarity cos)

/-- Translation of `_compare_annotations`: per-field scores over
`CORE_FIELDS` — note the code passes the *prediction's* value as the
evaluator's first (`gt_val`) argument — and their weighted mean. -/
def compare_annotations (cos : String → String → Option ℚ)
    (prd gt : Ann) (field_weights : List (String × ℚ)) :
    ℚ × List (String × ℚ) :=
  let field_scores := CORE_FIELDS.map (fun f =>
    (f, pheno_get_field_evaluator cos f (prd.get f) (gt.get f)))
  (compute_weighted_score field_scores (some field_weights), field_scores)

/-- Candidate match of `_find_best_matches`, with the indexed records
carried alongside the indices. -/
structure PhenoMatch where
  predIdx : ℕ
  predRec : Ann
  gtIdx : ℕ
  gtRec : Ann
  score : ℚ
  field_scores : List (String × ℚ)
  deriving Repr

/-- Translation of `_find_best_matches`: all cross pairs at or above the
matching threshold, sorted by score descending (Python's stable sort with
`reverse=True`). -/
def find_best_matches (cos : String → String → Option ℚ)
    (predictions ground_truths : List Ann) (field_weights : List (String × ℚ))
    (matching_threshold : ℚ) : List PhenoMatch :=
  let cands := predictions.enum.flatMap (fun ip =>
    ground_truths.enum.filterMap (fun ig =>
      let c := compare_annotations cos ip.2 ig.2 field_weights
      if c.1 ≥ matching_threshold then
        some { predIdx := ip.1, predRec := ip.2, gtIdx := ig.1, gtRec := ig.2,
               score := c.1, field_scores := c.2 }
      else none))
  cands.mergeSort (fun x y => decide (y.score ≤ x.score))

/-- Greedy assignment over the sorted matches: each prediction index is
used at most once (many-to-one on the ground-truth side is allowed). -/
def greedyAssign (sorted_matches : List PhenoMatch) : List PhenoMatch :=
  (sorted_matches.foldl
    (fun st m =>
      if st.1.contains m.predIdx then st
      else (st.1 ++ [m.predIdx], st.2 ++ [m]))
    (([] : List ℕ), ([] : List PhenoMatch))).2

/-- Translation of `PhenotypeAnnotationBenchmark.evaluate` on two
annotation lists (the dict/list input-shape normalization and its
`ValueError`s sit above this model).  As in the drug driver, per-field
dictionaries overwritten key-for-key by later loops are built once, and
the zero-extension for unmatched ground truth is written unconditionally
(appending zero copies is the identity); a field whose score list is empty
keeps the `{0.0, []}` entry exactly as in the source. -/
def pheno_evaluate (cos : String → String → Option ℚ)
    (gt_list pred_list : List Ann) (field_weights : Option (List (String × ℚ)))
    (matching_threshold : ℚ) : EvalResult :=
  if gt_list = [] ∨ pred_list = [] then
    { total_samples := 0, field_scores := [], overall_score := 0, detailed_results := [] }
  else
    let al := align_pheno_annotations_by_variant gt_list pred_list
    let aligned_gt := al.1
    let aligned_pred := al.2.1
    let display_keys := al.2.2.1
    let unmatched_gt := al.2.2.2.1
    let unmatched_pred := al.2.2.2.2
    if aligned_gt = [] then
      { total_samples := 0, field_scores := [], overall_score := 0, detailed_results := [],
        aligned_variants := some [], unmatched_ground_truth := some unmatched_gt,
        unmatched_predictions := some unmatched_pred,
        status := some "no_overlap_after_alignment" }
    else
      let weights := field_weights.getD DEFAULT_FIELD_WEIGHTS
      let all_matches := find_best_matches cos aligned_pred aligned_gt weights matching_threshold
      let matched_pairs := greedyAssign all_matches
      let num_unmatched := unmatched_gt.length
      let field_scores := CORE_FIELDS.map (fun f =>
        let scores := matched_pairs.map (fun m => (m.field_scores.lookup f).getD 0)
            ++ List.replicate num_unmatched 0
        ((f, { mean_score := if scores = [] then 0 else scores.sum / (scores.length : ℚ),
               scores := scores }) : String × FieldEntry))
      let detailed := matched_pairs.enum.map (fun im =>
        ({ sample_id := im.1, field_scores := im.2.field_scores,
           dependency_issues := [], penalty_info := {} } : SampleResult))
      let field_mean_scores := field_scores.map (fun fe => (fe.1, fe.2.mean_score))
      { total_samples := matched_pairs.length + num_unmatched,
        field_scores := field_scores,
        overall_score := compute_weighted_score field_mean_scores (some weights),
        detailed_results := detailed,
        aligned_variants := some display_keys,
        unmatched_ground_truth := some unmatched_gt,
        unmatched_predictions := some unmatched_pred }

/-! ## `study_parameters_benchmark.py`: p-value matching -/

/-- Operator class of the regex `[<>=≤≥]`. -/
def isPvalOpChar (c : Char) : Bool :=
  c = '<' || c = '>' || c = '=' || c = '≤' || c = '≥'

/-- Scanner for `re.search(r"([<>=≤≥]=?)", s)`: first operator character,
greedily extended by one `=`. -/
def findPvalOp : List Char → Option String
  | [] => none
  | c :: rest =>
    if isPvalOpChar c then
      match rest with
      | c2 :: _ => if c2 = '=' then some ⟨[c, '=']⟩ else some ⟨[c]⟩
      | [] => some ⟨[c]⟩
    else findPvalOp rest

/-- Translation of `study_parameters_benchmark.parse_p_value`: split a
p-value string into comparison operator (defaulting to `=`) and numeric
magnitude (operator characters and whitespace removed, then
`parse_numeric`). -/
def parse_p_value (pval : Option String) : Option String × Option ℚ :=
  match pval with
  | none => (none, none)
  | some s =>
    let t := pyStrip s
    if t = "" then (none, none)
    else
      let operator := (findPvalOp t.data).getD "="
      let value_str : String := ⟨t.data.filter (fun c => !(isPvalOpChar c || pyIsSpace c))⟩
      (some operator, parse_numeric (some value_str))

/-- Operator normalization map of `p_value_match`
(`<=` to `≤`, `>=` to `≥`, the rest unchanged). -/
def normPvalOp (op : String) : String :=
  if op = "<=" then "≤" else if op = ">=" then "≥" else op

/-- Translation of `study_parameters_benchmark.p_value_match`: 50%
operator equality, 50% numeric tolerance of the magnitudes — called with
`tolerance_10pct = 0.7`. -/
def p_value_match (gt_val pred_val : Option String) : ℚ :=
  let g := parse_p_value gt_val
  let p := parse_p_value pred_val
  match g.1, p.1 with
  | none, none => 1
  | none, some _ => 0
  | some _, none => 0
  | some gop, some pop =>
    let operator_score : ℚ := if normPvalOp gop = normPvalOp pop then 1 else 0
    let value_score := numeric_tolerance_core g.2 p.2 1 (9 / 10) (7 / 10)
    1 / 2 * operator_score + 1 / 2 * value_score

/-! ## Helper lemmas -/

theorem findUnclaimed_eq_some {pi : List (ℕ × PredEntry)} {claimed : List ℕ}
    {p : PredEntry → Bool} {ie : ℕ × PredEntry}
    (h : findUnclaimed pi claimed p = some ie) :
    claimed.contains ie.1 = false ∧ p ie.2 = true ∧ ie ∈ pi := by
  have h1 := List.find?_some h
  have h2 := List.mem_of_find?_eq_some h
  simp only [Bool.and_eq_true, Bool.not_eq_true'] at h1
  exact ⟨h1.1, h1.2, h2⟩

theorem findUnclaimed_isSome {pi : List (ℕ × PredEntry)} {claimed : List ℕ}
    {p : PredEntry → Bool}
    (h : ∃ ie ∈ pi, claimed.contains ie.1 = false ∧ p ie.2 = true) :
    ∃ ie, findUnclaimed pi claimed p = some ie := by
  obtain ⟨ie, hmem, hc, hp⟩ := h
  have : (pi.find? (fun ie => !(claimed.contains ie.1) && p ie.2)).isSome := by
    rw [List.find?_isSome]
    refine ⟨ie, hmem, ?_⟩
    simp only [Bool.and_eq_true, Bool.not_eq_true', hp, and_true]
    exact hc
  obtain ⟨x, hx⟩ := Option.isSome_iff_exists.mp this
  exact ⟨x, hx⟩

theorem orElse_cases {α : Type} {a b : Option α} {x : α} (h : (a <|> b) = some x) :
    a = some x ∨ (a = none ∧ b = some x) := by
  cases a <;> simp_all

theorem matchStepDrug_unclaimed {pi : List (ℕ × PredEntry)} {claimed : List ℕ}
    {gt_rec : Ann} {ie : ℕ × PredEntry}
    (h : matchStepDrug pi claimed gt_rec = some ie) :
    claimed.contains ie.1 = false := by
  simp only [matchStepDrug] at h
  rcases orElse_cases h with h1 | ⟨-, h2⟩
  · split at h1
    · exact (findUnclaimed_eq_some h1).1
    · exact absurd h1 (by simp)
  · rcases orElse_cases h2 with h3 | ⟨-, h4⟩
    · split at h3
      · exact (findUnclaimed_eq_some h3).1
      · exact absurd h3 (by simp)
    · split at h4
      · exact (findUnclaimed_eq_some h4).1
      · exact absurd h4 (by simp)

theorem matchStepPheno_unclaimed {pi : List (ℕ × PredEntry)} {claimed : List ℕ}
    {gt_rec : Ann} {ie : ℕ × PredEntry}
    (h : matchStepPheno pi claimed gt_rec = some ie) :
    claimed.contains ie.1 = false := by
  simp only [matchStepPheno] at h
  rcases orElse_cases h with h1 | ⟨-, h2⟩
  · split at h1
    · exact (findUnclaimed_eq_some h1).1
    · exact absurd h1 (by simp)
  · rcases orElse_cases h2 with h3 | ⟨-, h4⟩
    · split at h3
      · exact (findUnclaimed_eq_some h3).1
      · exact absurd h3 (by simp)
    · split at h4
      · exact (findUnclaimed_eq_some h4).1
      · exact absurd h4 (by simp)

theorem lookup_map_graph {β : Type} (g : String → β) (l : List String) (x : String) :
    (l.map (fun f => (f, g f))).lookup x = if x ∈ l then some (g x) else none := by
  induction l with
  | nil => simp [List.lookup]
  | cons f fs ih =>
    simp only [List.map_cons, List.lookup, List.mem_cons]
    by_cases hx : x = f
    · subst hx
      simp
    · have : (x == f) = false := by simp [hx]
      simp [this, ih, hx]

theorem lookup_cons_self {β : Type} (a : String) (b : β) (l : List (String × β)) :
    ((a, b) :: l).lookup a = some b := by
  simp [List.lookup]

theorem lookup_cons_ne {β : Type} {x a : String} (b : β) (l : List (String × β))
    (h : x ≠ a) : ((a, b) :: l).lookup x = l.lookup x := by
  have hbeq : (x == a) = false := by simp [h]
  simp [List.lookup, hbeq]

theorem lookup_penalize_map (P : List String) (c : ℚ)
    (l : List (String × ℚ)) (x : String) :
    (l.map (fun fs => if P.contains fs.1 then (fs.1, fs.2 * c) else fs)).lookup x =
      (l.lookup x).map (fun s => if P.contains x then s * c else s) := by
  induction l with
  | nil => simp [List.lookup]
  | cons fs rest ih =>
    obtain ⟨a, b⟩ := fs
    rw [List.map_cons]
    by_cases hx : x = a
    · subst hx
      by_cases hP : P.contains x = true
      · rw [if_pos hP, lookup_cons_self, lookup_cons_self]
        have hP' : x ∈ P := by simpa using hP
        simp [hP']
      · rw [if_neg hP, lookup_cons_self, lookup_cons_self]
        have hP' : x ∉ P := by simpa using hP
        simp [hP']
    · have hskip : rest.lookup x = ((a, b) :: rest).lookup x :=
        (lookup_cons_ne b rest hx).symm
      by_cases hP : P.contains a = true
      · rw [if_pos hP, lookup_cons_ne _ _ hx, lookup_cons_ne _ _ hx, ih]
      · rw [if_neg hP, lookup_cons_ne _ _ hx, lookup_cons_ne _ _ hx, ih]

theorem lookup_penalize_filterMap (P : List String) (c : ℚ)
    (l : List (String × ℚ)) (x : String) (hx : P.contains x = true) :
    (l.filterMap (fun fs =>
        if P.contains fs.1 then some (fs.1, (fs.2, fs.2 * c)) else none)).lookup x =
      (l.lookup x).map (fun s => (s, s * c)) := by
  induction l with
  | nil => simp [List.lookup]
  | cons fs rest ih =>
    obtain ⟨a, b⟩ := fs
    rw [List.filterMap_cons]
    by_cases hxa : x = a
    · subst hxa
      rw [if_pos hx]
      rw [lookup_cons_self, lookup_cons_self]
      rfl
    · by_cases hP : P.contains a = true
      · rw [if_pos hP, lookup_cons_ne _ _ hxa, lookup_cons_ne _ _ hxa, ih]
      · rw [if_neg hP, lookup_cons_ne _ _ hxa, ih]

theorem mem_dedupKeepFirst (l : List String) :
    ∀ (seen : List String) (x : String),
      x ∈ dedupKeepFirst seen l ↔ x ∈ l ∧ ¬ x ∈ seen := by
  induction l with
  | nil => intro seen x; simp [dedupKeepFirst]
  | cons t ts ih =>
    intro seen x
    simp only [dedupKeepFirst]
    by_cases ht : seen.contains t = true
    · rw [if_pos ht, ih]
      have htmem : t ∈ seen := by simpa using ht
      constructor
      · rintro ⟨h1, h2⟩
        exact ⟨List.mem_cons_of_mem _ h1, h2⟩
      · rintro ⟨h1, h2⟩
        rcases List.mem_cons.mp h1 with h | h
        · exact absurd (h ▸ htmem) h2
        · exact ⟨h, h2⟩
    · rw [if_neg ht]
      have htmem : t ∉ seen := by simpa using ht
      constructor
      · intro hmem
        rcases List.mem_cons.mp hmem with h | h
        · subst h
          exact ⟨List.mem_cons_self _ _, htmem⟩
        · obtain ⟨h1, h2⟩ := (ih _ _).mp h
          exact ⟨List.mem_cons_of_mem _ h1,
            fun hc => h2 (List.mem_cons_of_mem _ hc)⟩
      · rintro ⟨h1, h2⟩
        by_cases hxt : x = t
        · subst hxt
          exact List.mem_cons_self _ _
        · rcases List.mem_cons.mp h1 with h | h
          · exact absurd h hxt
          · refine List.mem_cons_of_mem _ ((ih _ _).mpr ⟨h, fun hc => ?_⟩)
            rcases List.mem_cons.mp hc with h' | h'
            · exact hxt h'
            · exact h2 h'

/-- A sublist together with the complement filter is a permutation of a
duplicate-free list. -/
theorem sublist_append_filter_perm {α : Type} [DecidableEq α] :
    ∀ {s l : List α}, List.Sublist s l → l.Nodup →
      (s ++ l.filter (fun x => !(s.contains x))).Perm l := by
  intro s l h
  induction h with
  | slnil => simp
  | @cons l₁ l₂ a h ih =>
    intro hnd
    rw [List.nodup_cons] at hnd
    have ha : a ∉ l₁ := fun hc => hnd.1 (h.subset hc)
    have hfa : (l₁.contains a) = false := by simpa using ha
    have hfilter : (a :: l₂).filter (fun x => !(l₁.contains x)) =
        a :: l₂.filter (fun x => !(l₁.contains x)) := by
      simp [List.filter_cons, hfa, ha]
    rw [hfilter]
    exact List.perm_middle.trans ((ih hnd.2).cons a)
  | @cons₂ l₁ l₂ a h ih =>
    intro hnd
    rw [List.nodup_cons] at hnd
    have hfilter2 :
        l₂.filter (fun x => !((a :: l₁).contains x)) =
          l₂.filter (fun x => !(l₁.contains x)) := by
      apply List.filter_congr
      intro x hx
      have hxa : x ≠ a := fun hc => hnd.1 (hc ▸ hx)
      simp [List.contains_cons, hxa]
    have hfilter : (a :: l₂).filter (fun x => !((a :: l₁).contains x)) =
        l₂.filter (fun x => !(l₁.contains x)) := by
      rw [List.filter_cons]
      have haa : ((a :: l₁).contains a) = true := by simp
      rw [haa]
      simpa using hfilter2
    rw [hfilter]
    simpa using (ih hnd.2).cons a

theorem alignGo_nodup
    (step : List (ℕ × PredEntry) → List ℕ → Ann → Option (ℕ × PredEntry))
    (pi : List (ℕ × PredEntry))
    (hstep : ∀ claimed g ie, step pi claimed g = some ie → claimed.contains ie.1 = false) :
    ∀ (gts : List Ann) (st : List MatchedPair),
      (st.map (·.predIdx)).Nodup → ((alignGo step pi st gts).map (·.predIdx)).Nodup := by
  intro gts
  induction gts with
  | nil => intro st h; exact h
  | cons g gs ih =>
    intro st h
    simp only [alignGo]
    cases hm : step pi (st.map (·.predIdx)) g with
    | none => exact ih st h
    | some ie =>
      refine ih _ ?_
      have hnc := hstep _ _ _ hm
      have hnm : ie.1 ∉ st.map (·.predIdx) := by simpa using hnc
      simp only [alignAppend, List.map_append, List.map_cons, List.map_nil]
      rw [List.nodup_append]
      exact ⟨h, List.nodup_singleton _, by simpa [List.disjoint_singleton] using hnm⟩

theorem alignGo_gtRec_decomp
    (step : List (ℕ × PredEntry) → List ℕ → Ann → Option (ℕ × PredEntry))
    (pi : List (ℕ × PredEntry)) :
    ∀ (gts : List Ann) (st : List MatchedPair),
      ∃ t, (alignGo step pi st gts).map (·.gtRec) = st.map (·.gtRec) ++ t ∧
        List.Sublist t gts := by
  intro gts
  induction gts with
  | nil => intro st; exact ⟨[], by simp [alignGo], List.Sublist.refl _⟩
  | cons g gs ih =>
    intro st
    simp only [alignGo]
    cases hm : step pi (st.map (·.predIdx)) g with
    | none =>
      obtain ⟨t, ht, hs⟩ := ih st
      exact ⟨t, ht, hs.cons g⟩
    | some ie =>
      obtain ⟨t, ht, hs⟩ := ih (alignAppend g ie st)
      refine ⟨g :: t, ?_, hs.cons₂ g⟩
      rw [ht]
      simp [alignAppend]

/-- Case analysis of one phenotype fallback-pass iteration: either the
state is unchanged, or an unclaimed prediction satisfying the Gene+Drug
test is appended for a ground-truth record not yet aligned by value. -/
theorem phenoFallbackStep_cases (pi : List (ℕ × PredEntry)) (st : List MatchedPair)
    (g : Ann) :
    phenoFallbackStep pi st g = st ∨
    ∃ ie : ℕ × PredEntry,
      findUnclaimed pi (st.map (·.predIdx))
        (phenoFallbackCond (fallbackGene g) (fallbackDrug g)
          (get_normalized_drug_id g)) = some ie ∧
      ((st.map (·.gtRec)).contains g) = false ∧
      phenoFallbackStep pi st g =
        st ++ [{ gtRec := g, predIdx := ie.1, predRec := ie.2.record,
                 key := if fallbackDrug g ≠ "" then
                     fallbackGene g ++ "+" ++ fallbackDrug g
                   else fallbackGene g }] := by
  by_cases h1 : ((st.map (·.gtRec)).contains g) = true
  · left
    rw [phenoFallbackStep, if_pos h1]
  · by_cases h2 : fallbackGene g = "" ∧ fallbackDrug g = ""
    · left
      rw [phenoFallbackStep, if_neg h1]
      simp only
      rw [if_pos h2]
    · cases hf : findUnclaimed pi (st.map (·.predIdx))
          (phenoFallbackCond (fallbackGene g) (fallbackDrug g)
            (get_normalized_drug_id g)) with
      | none =>
        left
        rw [phenoFallbackStep, if_neg h1]
        simp only
        rw [if_neg h2]
        simp only [hf]
      | some ie =>
        obtain ⟨idx, e⟩ := ie
        right
        refine ⟨(idx, e), rfl, by simpa using h1, ?_⟩
        rw [phenoFallbackStep, if_neg h1]
        simp only
        rw [if_neg h2]
        simp only [hf]

/-- The fallback pass never claims a prediction index twice. -/
theorem phenoFold_nodup_idx (pi : List (ℕ × PredEntry)) :
    ∀ (gts : List Ann) (st : List MatchedPair),
      (st.map (·.predIdx)).Nodup →
      ((gts.foldl (phenoFallbackStep pi) st).map (·.predIdx)).Nodup := by
  intro gts
  induction gts with
  | nil => intro st h; exact h
  | cons g gs ih =>
    intro st h
    rw [List.foldl_cons]
    rcases phenoFallbackStep_cases pi st g with heq | ⟨ie, hf, -, heq⟩
    · rw [heq]
      exact ih st h
    · rw [heq]
      refine ih _ ?_
      have hnc := (findUnclaimed_eq_some hf).1
      have hnm : ie.1 ∉ st.map (·.predIdx) := by simpa using hnc
      simp only [List.map_append, List.map_cons, List.map_nil]
      rw [List.nodup_append]
      exact ⟨h, List.nodup_singleton _, by simpa [List.disjoint_singleton] using hnm⟩

/-- The fallback pass appends only ground-truth records not yet aligned,
preserving distinctness of the aligned ground-truth records. -/
theorem phenoFold_nodup_gtRec (pi : List (ℕ × PredEntry)) :
    ∀ (gts : List Ann) (st : List MatchedPair),
      (st.map (·.gtRec)).Nodup →
      ((gts.foldl (phenoFallbackStep pi) st).map (·.gtRec)).Nodup := by
  intro gts
  induction gts with
  | nil => intro st h; exact h
  | cons g gs ih =>
    intro st h
    rw [List.foldl_cons]
    rcases phenoFallbackStep_cases pi st g with heq | ⟨ie, -, hng, heq⟩
    · rw [heq]
      exact ih st h
    · rw [heq]
      refine ih _ ?_
      have hnm : g ∉ st.map (·.gtRec) := by simpa using hng
      simp only [List.map_append, List.map_cons, List.map_nil]
      rw [List.nodup_append]
      exact ⟨h, List.nodup_singleton _, by simpa [List.disjoint_singleton] using hnm⟩

/-- Every ground-truth record aligned by the fallback pass comes from the
state or from the iterated list. -/
theorem phenoFold_gtRec_subset (pi : List (ℕ × PredEntry)) (S : List Ann) :
    ∀ (gts : List Ann) (st : List MatchedPair),
      (∀ x ∈ st.map (·.gtRec), x ∈ S) → (∀ g ∈ gts, g ∈ S) →
      ∀ x ∈ (gts.foldl (phenoFallbackStep pi) st).map (·.gtRec), x ∈ S := by
  intro gts
  induction gts with
  | nil => intro st hst hgts x hx; exact hst x hx
  | cons g gs ih =>
    intro st hst hgts x hx
    rw [List.foldl_cons] at hx
    rcases phenoFallbackStep_cases pi st g with heq | ⟨ie, -, -, heq⟩
    · rw [heq] at hx
      exact ih st hst (fun g' hg' => hgts g' (List.mem_cons_of_mem _ hg')) x hx
    · rw [heq] at hx
      refine ih _ ?_ (fun g' hg' => hgts g' (List.mem_cons_of_mem _ hg')) x hx
      intro y hy
      simp only [List.map_append, List.map_cons, List.map_nil, List.mem_append,
        List.mem_singleton] at hy
      rcases hy with hy | hy
      · exact hst y hy
      · exact hy ▸ hgts g (List.mem_cons_self _ _)

/-- A duplicate-free selection from a duplicate-free list, together with
the complement filter, is a permutation of the list. -/
theorem nodup_subset_filter_perm {α : Type} [DecidableEq α] (s l : List α)
    (hs : s.Nodup) (hsub : ∀ x ∈ s, x ∈ l) (hl : l.Nodup) :
    (s ++ l.filter (fun x => !(s.contains x))).Perm l := by
  rw [List.perm_iff_count]
  intro a
  rw [List.count_append]
  by_cases hmem : a ∈ s
  · have h1 : s.count a = 1 := List.count_eq_one_of_mem hs hmem
    have h2 : (l.filter (fun x => !(s.contains x))).count a = 0 := by
      rw [List.count_eq_zero]
      intro hc
      have := List.of_mem_filter hc
      simp at this
      exact this hmem
    have h3 : l.count a = 1 := List.count_eq_one_of_mem hl (hsub a hmem)
    rw [h1, h2, h3]
  · have h1 : s.count a = 0 := List.count_eq_zero.mpr hmem
    have h2 : (l.filter (fun x => !(s.contains x))).count a = l.count a :=
      List.count_filter (by simpa using hmem)
    rw [h1, h2]
    norm_num

/-! ## Claim C1: field-evaluator ranges -/

/-- C1 (counterexample): the claim that every field evaluator — the
semantic-similarity evaluator included, "including when it delegates to
the embedding collaborator's cosine similarity" — returns a value in
`[0,1]` is false: `semantic_similarity` returns the collaborator's cosine
value unclamped, and a cosine similarity of −1 (opposite embedding
vectors) is passed straight through, giving a score below 0. -/
theorem C1_semantic_similarity_below_zero :
    semantic_similarity (fun _ _ => some (-1)) (some "a") (some "b") = -1 ∧
    ¬ (0 ≤ semantic_similarity (fun _ _ => some (-1)) (some "a") (some "b")) := by
  have h : semantic_similarity (fun _ _ => some (-1)) (some "a") (some "b") = -1 := by
    with_unfolding_all rfl
  rw [h]
  norm_num

/-- C1 (amended): the exact/categorical and substring evaluators of the
phenotype benchmark's table always return values in `[0,1]`; the
semantic-similarity evaluator forwards the collaborator's cosine value,
so whenever the collaborator's values lie in the cosine range `[−1,1]`
its results lie in `[−1,1]` (the null and equal cases give 1.0/0.0 and
the `SequenceMatcher` fallback lies in `[0,1]`). -/
theorem C1_field_evaluator_ranges (cos : String → String → Option ℚ)
    (hcos : ∀ s t c, cos s t = some c → -1 ≤ c ∧ c ≤ 1) :
    (∀ g p, 0 ≤ variant_substring_match g p ∧ variant_substring_match g p ≤ 1) ∧
    (∀ g p, 0 ≤ category_equal g p ∧ category_equal g p ≤ 1) ∧
    (∀ g p, 0 ≤ exact_match g p ∧ exact_match g p ≤ 1) ∧
    (∀ g p, -1 ≤ semantic_similarity cos g p ∧ semantic_similarity cos g p ≤ 1) := by
  refine ⟨?_, ?_, ?_, ?_⟩
  · intro g p
    rcases g with _ | gs <;> rcases p with _ | ps <;>
      simp only [variant_substring_match] <;>
      first
        | (split_ifs <;> norm_num)
        | norm_num
  · intro g p
    rcases g with _ | gs <;> rcases p with _ | ps <;>
      simp only [category_equal] <;>
      first
        | (split_ifs <;> norm_num)
        | norm_num
  · intro g p
    rcases g with _ | gs <;> rcases p with _ | ps <;>
      simp only [exact_match] <;>
      first
        | (split_ifs <;> norm_num)
        | norm_num
  · intro g p
    rcases g with _ | gs <;> rcases p with _ | ps <;>
      simp only [semantic_similarity]
    · norm_num
    · norm_num
    · norm_num
    · split_ifs with heq
      · norm_num
      · cases hc : cos (pyStrip gs) (pyStrip ps) with
        | some c =>
          simpa using hcos _ _ _ hc
        | none =>
          have hb := ratcliffSim_bounds (pyLower (pyStrip gs)) (pyLower (pyStrip ps))
          constructor
          · linarith [hb.1]
          · exact hb.2

/-- C1 (witness): the amended range theorem applied to the constant-0
collaborator at concrete field values. -/
theorem C1_field_evaluator_ranges_witness :
    0 ≤ variant_substring_match (some "rs1") (some "rs1, rs2") ∧
    (-1 ≤ semantic_similarity (fun _ _ => some 0) (some "x") (some "y") ∧
      semantic_similarity (fun _ _ => some 0) (some "x") (some "y") ≤ 1) := by
  have h := C1_field_evaluator_ranges (fun _ _ => some 0)
    (fun s t c hc => by
      have hc' : (0 : ℚ) = c := by injection hc
      subst hc'
      norm_num)
  exact ⟨(h.1 _ _).1, h.2.2.2 _ _⟩

/-! ## Claim C2: numeric-tolerance bands -/

/-- Band behaviour of the numeric-tolerance core on two parsed values. -/
theorem numeric_tolerance_core_bands (x y e t5 t10 : ℚ) :
    (x = 0 ∧ y = 0 → numeric_tolerance_core (some x) (some y) e t5 t10 = 1) ∧
    ((x = 0 ∧ y ≠ 0) ∨ (x ≠ 0 ∧ y = 0) →
      numeric_tolerance_core (some x) (some y) e t5 t10 = 0) ∧
    (x ≠ 0 → y ≠ 0 → x = y → numeric_tolerance_core (some x) (some y) e t5 t10 = e) ∧
    (x ≠ 0 → y ≠ 0 → x ≠ y → |x - y| / |x| ≤ 5 / 100 →
      numeric_tolerance_core (some x) (some y) e t5 t10 = t5) ∧
    (x ≠ 0 → y ≠ 0 → 5 / 100 < |x - y| / |x| → |x - y| / |x| ≤ 10 / 100 →
      numeric_tolerance_core (some x) (some y) e t5 t10 = t10) ∧
    (x ≠ 0 → y ≠ 0 → 10 / 100 < |x - y| / |x| →
      numeric_tolerance_core (some x) (some y) e t5 t10 = 0) := by
  have habs : ∀ u v : ℚ, u ≠ v → |u - v| ≠ 0 := by
    intro u v h hc
    exact h (sub_eq_zero.mp (abs_eq_zero.mp hc))
  refine ⟨?_, ?_, ?_, ?_, ?_, ?_⟩
  · rintro ⟨hx, hy⟩
    simp [numeric_tolerance_core, hx, hy]
  · rintro (⟨hx, hy⟩ | ⟨hx, hy⟩) <;>
      simp [numeric_tolerance_core, hx, hy]
  · intro hx hy hxy
    subst hxy
    simp [numeric_tolerance_core, hx]
  · intro hx hy hxy h5
    simp only [numeric_tolerance_core]
    rw [if_neg (by tauto), if_neg (by tauto), if_neg (habs _ _ hxy), if_pos h5]
  · intro hx hy h5 h10
    have hd : |x - y| ≠ 0 := by
      intro hc
      rw [hc] at h5
      simp only [zero_div] at h5
      linarith
    simp only [numeric_tolerance_core]
    rw [if_neg (by tauto), if_neg (by tauto), if_neg hd, if_neg (by linarith), if_pos h10]
  · intro hx hy h10
    have hd : |x - y| ≠ 0 := by
      intro hc
      rw [hc] at h10
      simp only [zero_div] at h10
      linarith
    simp only [numeric_tolerance_core]
    rw [if_neg (by tauto), if_neg (by tauto), if_neg hd, if_neg (by linarith),
      if_neg (by linarith)]

/-- C2 (counterexample): the claim's example "gt=100 vs pred=111 scores
0.8" is false — the relative error is 11%, beyond the 10% band, so the
evaluator returns 0.0 (consistent with the claim's own general rule). -/
theorem C2_band_example_111 :
    numeric_tolerance_match (some "100") (some "111") 1 (9 / 10) (8 / 10) = 0 ∧
    ¬ (numeric_tolerance_match (some "100") (some "111") 1 (9 / 10) (8 / 10) = 8 / 10) := by
  have h : numeric_tolerance_match (some "100") (some "111") 1 (9 / 10) (8 / 10) = 0 := by
    with_unfolding_all rfl
  rw [h]
  norm_num

/-- C2 (amended): with the default weights (1.0, 0.9, 0.8) the numeric
tolerance evaluator, on parseable inputs, returns 1.0 on equal values,
0.9 at relative error ≤ 5%, 0.8 at ≤ 10%, 0.0 beyond, 1.0 when both
values are zero and 0.0 when exactly one is; gt=100 vs pred=104 gives
0.9, gt=100 vs pred=111 gives 0.0 (11% error), gt=100 vs pred=130 gives
0.0. -/
theorem C2_numeric_tolerance_bands (g p : Option String) (x y : ℚ)
    (hg : parse_numeric g = some x) (hp : parse_numeric p = some y) :
    (x = 0 ∧ y = 0 → numeric_tolerance_match g p 1 (9 / 10) (8 / 10) = 1) ∧
    ((x = 0 ∧ y ≠ 0) ∨ (x ≠ 0 ∧ y = 0) →
      numeric_tolerance_match g p 1 (9 / 10) (8 / 10) = 0) ∧
    (x ≠ 0 → y ≠ 0 → x = y → numeric_tolerance_match g p 1 (9 / 10) (8 / 10) = 1) ∧
    (x ≠ 0 → y ≠ 0 → x ≠ y → |x - y| / |x| ≤ 5 / 100 →
      numeric_tolerance_match g p 1 (9 / 10) (8 / 10) = 9 / 10) ∧
    (x ≠ 0 → y ≠ 0 → 5 / 100 < |x - y| / |x| → |x - y| / |x| ≤ 10 / 100 →
      numeric_tolerance_match g p 1 (9 / 10) (8 / 10) = 8 / 10) ∧
    (x ≠ 0 → y ≠ 0 → 10 / 100 < |x - y| / |x| →
      numeric_tolerance_match g p 1 (9 / 10) (8 / 10) = 0) ∧
    numeric_tolerance_match (some "100") (some "104") 1 (9 / 10) (8 / 10) = 9 / 10 ∧
    numeric_tolerance_match (some "100") (some "111") 1 (9 / 10) (8 / 10) = 0 ∧
    numeric_tolerance_match (some "100") (some "130") 1 (9 / 10) (8 / 10) = 0 := by
  have hcore := numeric_tolerance_core_bands x y 1 (9 / 10) (8 / 10)
  have hrw : numeric_tolerance_match g p 1 (9 / 10) (8 / 10) =
      numeric_tolerance_core (some x) (some y) 1 (9 / 10) (8 / 10) := by
    rw [numeric_tolerance_match, hg, hp]
  rw [hrw]
  refine ⟨hcore.1, hcore.2.1, hcore.2.2.1, hcore.2.2.2.1, hcore.2.2.2.2.1,
    hcore.2.2.2.2.2, by with_unfolding_all rfl, by with_unfolding_all rfl,
    by with_unfolding_all rfl⟩

/-- C2 (witness): the amended band theorem applied at gt="100",
pred="104". -/
theorem C2_numeric_tolerance_bands_witness :
    numeric_tolerance_match (some "100") (some "104") 1 (9 / 10) (8 / 10) = 9 / 10 := by
  have h := C2_numeric_tolerance_bands (some "100") (some "104") 100 104
    (by with_unfolding_all rfl) (by with_unfolding_all rfl)
  exact h.2.2.2.1 (by norm_num) (by norm_num) (by norm_num) (by norm_num)

/-! ## Claim C9: p-value matching -/

/-- C9 (counterexample): the claim that the magnitude half of
`p_value_match` follows the §4.3 bands (relative error ≤ 10% giving 0.8)
is false: the code calls the tolerance evaluator with
`tolerance_10pct = 0.7`, so gt "100" vs pred "109" (9% error, equal
operators) scores 0.5·1 + 0.5·0.7 = 0.85, not 0.9. -/
theorem C9_ten_pct_band_is_07 :
    p_value_match (some "100") (some "109") = 17 / 20 ∧
    ¬ (p_value_match (some "100") (some "109") = 9 / 10) := by
  have h : p_value_match (some "100") (some "109") = 17 / 20 := by
    with_unfolding_all rfl
  rw [h]
  norm_num

/-- C9 (amended): for p-value strings that parse to operators and
magnitudes, `p_value_match` returns 0.5·(operator equality) +
0.5·(numeric tolerance of the magnitudes), where the magnitude bands are
1.0 (equal), 0.9 (relative error ≤ 5%), 0.7 — not 0.8 — (≤ 10%), 0.0
(beyond); with equal operators the totals are 1.0, 0.95, 0.85 and 0.5. -/
theorem C9_p_value_match_bands (g p : Option String) (gop pop : String) (x y : ℚ)
    (hg : parse_p_value g = (some gop, some x))
    (hp : parse_p_value p = (some pop, some y)) :
    p_value_match g p =
      1 / 2 * (if normPvalOp gop = normPvalOp pop then 1 else 0) +
        1 / 2 * numeric_tolerance_core (some x) (some y) 1 (9 / 10) (7 / 10) ∧
    (normPvalOp gop = normPvalOp pop → x ≠ 0 → y ≠ 0 → x = y →
      p_value_match g p = 1) ∧
    (normPvalOp gop = normPvalOp pop → x ≠ 0 → y ≠ 0 → x ≠ y →
      |x - y| / |x| ≤ 5 / 100 → p_value_match g p = 19 / 20) ∧
    (normPvalOp gop = normPvalOp pop → x ≠ 0 → y ≠ 0 →
      5 / 100 < |x - y| / |x| → |x - y| / |x| ≤ 10 / 100 →
      p_value_match g p = 17 / 20) ∧
    (normPvalOp gop = normPvalOp pop → x ≠ 0 → y ≠ 0 →
      10 / 100 < |x - y| / |x| → p_value_match g p = 1 / 2) := by
  have hcore := numeric_tolerance_core_bands x y 1 (9 / 10) (7 / 10)
  have hbase : p_value_match g p =
      1 / 2 * (if normPvalOp gop = normPvalOp pop then 1 else 0) +
        1 / 2 * numeric_tolerance_core (some x) (some y) 1 (9 / 10) (7 / 10) := by
    rw [p_value_match, hg, hp]
  refine ⟨hbase, ?_, ?_, ?_, ?_⟩
  · intro hop hx hy hxy
    rw [hbase, if_pos hop, hcore.2.2.1 hx hy hxy]
    norm_num
  · intro hop hx hy hxy h5
    rw [hbase, if_pos hop, hcore.2.2.2.1 hx hy hxy h5]
    norm_num
  · intro hop hx hy h5 h10
    rw [hbase, if_pos hop, hcore.2.2.2.2.1 hx hy h5 h10]
    norm_num
  · intro hop hx hy h10
    rw [hbase, if_pos hop, hcore.2.2.2.2.2 hx hy h10]
    norm_num

/-- C9 (witness): the amended band theorem applied at gt "100",
pred "109". -/
theorem C9_p_value_match_bands_witness :
    p_value_match (some "100") (some "109") = 17 / 20 := by
  have h := C9_p_value_match_bands (some "100") (some "109") "=" "=" 100 109
    (by with_unfolding_all rfl) (by with_unfolding_all rfl)
  exact h.2.2.2.1 rfl (by norm_num) (by norm_num) (by norm_num) (by norm_num)

/-! ## Claim C10: operator-aware drug coverage -/

set_option maxRecDepth 40000 in
/-- C10 (confirmed): on records whose `Drug(s)` fields both parse to
non-empty token lists, `drugs_coverage` builds the fuzzy coverage vector
(token equality or `SequenceMatcher` ratio ≥ 0.85) and combines it per
the `Multiple drugs And/or` operator: "and" gives 1.0 when all
ground-truth tokens are covered and otherwise covered/total; any other
operator (the default "or") gives max(covered fraction, 1.0 if any token
is covered); gt "aspirin, warfarin" with operator "and" against a
prediction carrying only "aspirin" scores 1/2, and the same inputs with
operator "or" score 1 ≥ 1/2. -/
theorem C10_drugs_coverage_operator (gt prd : Ann)
    (hg : parse_drug_list gt.drugs ≠ []) (hp : parse_drug_list prd.drugs ≠ []) :
    (pyLower (pyStrip (firstTruthy gt.multipleDrugsAndOr prd.multipleDrugsAndOr "or")) = "and" →
      drugs_coverage gt prd =
        (if (coveredList (parse_drug_list gt.drugs) (parse_drug_list prd.drugs)).all id then 1
         else ((coveredList (parse_drug_list gt.drugs) (parse_drug_list prd.drugs)).count true : ℚ) /
           ((coveredList (parse_drug_list gt.drugs) (parse_drug_list prd.drugs)).length : ℚ))) ∧
    (pyLower (pyStrip (firstTruthy gt.multipleDrugsAndOr prd.multipleDrugsAndOr "or")) ≠ "and" →
      drugs_coverage gt prd =
        max (((coveredList (parse_drug_list gt.drugs) (parse_drug_list prd.drugs)).count true : ℚ) /
            ((coveredList (parse_drug_list gt.drugs) (parse_drug_list prd.drugs)).length : ℚ))
          (if (coveredList (parse_drug_list gt.drugs) (parse_drug_list prd.drugs)).any id then 1 else 0)) ∧
    drugs_coverage { drugs := some "aspirin, warfarin", multipleDrugsAndOr := some "and" }
      { drugs := some "aspirin" } = 1 / 2 ∧
    drugs_coverage { drugs := some "aspirin, warfarin", multipleDrugsAndOr := some "or" }
      { drugs := some "aspirin" } = 1 ∧
    (1 : ℚ) ≥ 1 / 2 := by
  have hne : ¬ (parse_drug_list gt.drugs = [] ∧ parse_drug_list prd.drugs = []) := by
    tauto
  have hne2 : ¬ (parse_drug_list gt.drugs = [] ∨ parse_drug_list prd.drugs = []) := by
    tauto
  refine ⟨?_, ?_, by with_unfolding_all rfl, by with_unfolding_all rfl, by norm_num⟩
  · intro hop
    rw [drugs_coverage]
    rw [if_neg hne, if_neg hne2, if_pos hop]
  · intro hop
    rw [drugs_coverage]
    rw [if_neg hne, if_neg hne2, if_neg hop]

set_option maxRecDepth 40000 in
/-- C10 (witness): the operator theorem applied to the "and" example
record pair. -/
theorem C10_drugs_coverage_operator_witness :
    drugs_coverage { drugs := some "aspirin, warfarin", multipleDrugsAndOr := some "and" }
      { drugs := some "aspirin" } = 1 / 2 := by
  have h := C10_drugs_coverage_operator
    { drugs := some "aspirin, warfarin", multipleDrugsAndOr := some "and" }
    { drugs := some "aspirin" }
    (by with_unfolding_all decide) (by with_unfolding_all decide)
  exact h.2.2.1

theorem lookup_some_mem_keys {β : Type} {l : List (String × β)} {f : String} {s : β}
    (h : l.lookup f = some s) : f ∈ l.map (·.1) := by
  induction l with
  | nil => simp [List.lookup] at h
  | cons fs rest ih =>
    obtain ⟨a, b⟩ := fs
    by_cases hx : f = a
    · subst hx
      simp
    · rw [lookup_cons_ne _ _ hx] at h
      simpa using Or.inr (by simpa using ih h)

/-! ## Claim C6: dependency-issue penalties -/

/-- C6 (confirmed): in both the drug and the FA penalty blocks, a record
with `n ≥ 1` dependency issues gets the penalty `min(0.05·n, 0.30)`; each
issue maps to its affected-field set by text category (the two blocks
using their respective classification tables), an issue classified to no
category penalizing every field; every affected field's score is
multiplied by `(1 − penalty)` exactly once with the pre-penalty value
retained in `penalized_fields`, and unaffected fields are unchanged; in
each block a record whose only violation is "Direction of effect" set
with association ≠ "Associated with" yields exactly that one issue (for
FA, through `validate_all_dependencies`), a 0.05 penalty, and the
affected set {Direction of effect, Is/Is Not associated}; 7 or more
issues cap the penalty at 0.30. -/
theorem C6_penalty_application (field_scores : List (String × ℚ)) (issues : List String)
    (h : issues ≠ []) (f : String) (s : ℚ) (hf : field_scores.lookup f = some s) :
    (applyDrugPenalties field_scores issues).2.total_penalty =
      min ((issues.length : ℚ) * (5 / 100)) (3 / 10) ∧
    ((dedupKeepFirst []
        (issues.flatMap (drugAffectedFields (field_scores.map (·.1))))).contains f = true →
      (applyDrugPenalties field_scores issues).1.lookup f =
        some (s * (1 - min ((issues.length : ℚ) * (5 / 100)) (3 / 10))) ∧
      (applyDrugPenalties field_scores issues).2.penalized_fields.lookup f =
        some (s, s * (1 - min ((issues.length : ℚ) * (5 / 100)) (3 / 10)))) ∧
    ((dedupKeepFirst []
        (issues.flatMap (drugAffectedFields (field_scores.map (·.1))))).contains f = false →
      (applyDrugPenalties field_scores issues).1.lookup f = some s) ∧
    ((∃ iss ∈ issues,
        drugAffectedFields (field_scores.map (·.1)) iss = field_scores.map (·.1)) →
      (dedupKeepFirst []
        (issues.flatMap (drugAffectedFields (field_scores.map (·.1))))).contains f = true) ∧
    (7 ≤ issues.length →
      (applyDrugPenalties field_scores issues).2.total_penalty = 3 / 10) ∧
    (∀ a : Ann, truthy a.directionOfEffect = true →
      a.isIsNotAssociated ≠ some "Associated with" →
      ¬ (truthy a.comparisonAlleles = true ∧ ¬ truthy a.variantHaplotypes = true) →
      ¬ (truthy a.multipleDrugsAndOr = true ∧ ¬ truthy a.drugs = true) →
      validate_drug_dependencies a =
          ["Direction of effect requires 'Associated with' status"] ∧
        (applyDrugPenalties field_scores (validate_drug_dependencies a)).2.total_penalty =
          1 / 20 ∧
        drugAffectedFields (field_scores.map (·.1))
            "Direction of effect requires 'Associated with' status" =
          ["Direction of effect", "Is/Is Not associated"]) ∧
    (applyFaPenalties field_scores issues).2.total_penalty =
      min ((issues.length : ℚ) * (5 / 100)) (3 / 10) ∧
    ((dedupKeepFirst []
        (issues.flatMap (faAffectedFields (field_scores.map (·.1))))).contains f = true →
      (applyFaPenalties field_scores issues).1.lookup f =
        some (s * (1 - min ((issues.length : ℚ) * (5 / 100)) (3 / 10))) ∧
      (applyFaPenalties field_scores issues).2.penalized_fields.lookup f =
        some (s, s * (1 - min ((issues.length : ℚ) * (5 / 100)) (3 / 10)))) ∧
    ((dedupKeepFirst []
        (issues.flatMap (faAffectedFields (field_scores.map (·.1))))).contains f = false →
      (applyFaPenalties field_scores issues).1.lookup f = some s) ∧
    ((∃ iss ∈ issues,
        faAffectedFields (field_scores.map (·.1)) iss = field_scores.map (·.1)) →
      (dedupKeepFirst []
        (issues.flatMap (faAffectedFields (field_scores.map (·.1))))).contains f = true) ∧
    (7 ≤ issues.length →
      (applyFaPenalties field_scores issues).2.total_penalty = 3 / 10) ∧
    (∀ a : Ann, validate_external_data a = [] →
      truthy a.directionOfEffect = true →
      a.isIsNotAssociated ≠ some "Associated with" →
      ¬ (truthy a.geneProduct = true ∧ ¬ truthy a.gene = true) →
      ¬ (truthy a.comparisonAlleles = true ∧ ¬ truthy a.variantHaplotypes = true) →
      ¬ (truthy a.functionalTerms = true ∧ ¬ truthy a.geneProduct = true) →
      validate_all_dependencies a none =
          ["Direction of effect requires 'Associated with' status"] ∧
        (applyFaPenalties field_scores (validate_all_dependencies a none)).2.total_penalty =
          1 / 20 ∧
        faAffectedFields (field_scores.map (·.1))
            "Direction of effect requires 'Associated with' status" =
          ["Direction of effect", "Is/Is Not associated"]) := by
  have hpen : applyDrugPenalties field_scores issues =
      (field_scores.map (fun fs =>
        if (dedupKeepFirst []
            (issues.flatMap (drugAffectedFields (field_scores.map (·.1))))).contains fs.1 then
          (fs.1, fs.2 * (1 - min ((issues.length : ℚ) * (5 / 100)) (3 / 10)))
        else fs),
       { total_penalty := min ((issues.length : ℚ) * (5 / 100)) (3 / 10),
         penalized_fields := field_scores.filterMap (fun fs =>
          if (dedupKeepFirst []
              (issues.flatMap (drugAffectedFields (field_scores.map (·.1))))).contains fs.1 then
            some (fs.1, (fs.2,
              fs.2 * (1 - min ((issues.length : ℚ) * (5 / 100)) (3 / 10))))
          else none) }) := by
    rw [applyDrugPenalties, if_neg h]
  have hfapen : applyFaPenalties field_scores issues =
      (field_scores.map (fun fs =>
        if (dedupKeepFirst []
            (issues.flatMap (faAffectedFields (field_scores.map (·.1))))).contains fs.1 then
          (fs.1, fs.2 * (1 - min ((issues.length : ℚ) * (5 / 100)) (3 / 10)))
        else fs),
       { total_penalty := min ((issues.length : ℚ) * (5 / 100)) (3 / 10),
         penalized_fields := field_scores.filterMap (fun fs =>
          if (dedupKeepFirst []
              (issues.flatMap (faAffectedFields (field_scores.map (·.1))))).contains fs.1 then
            some (fs.1, (fs.2,
              fs.2 * (1 - min ((issues.length : ℚ) * (5 / 100)) (3 / 10))))
          else none) }) := by
    rw [applyFaPenalties, if_neg h]
  refine ⟨by rw [hpen], ?_, ?_, ?_, ?_, ?_, by rw [hfapen], ?_, ?_, ?_, ?_, ?_⟩
  · intro hmem
    have hmem' : f ∈ dedupKeepFirst []
        (issues.flatMap (drugAffectedFields (field_scores.map (·.1)))) := by
      simpa using hmem
    constructor
    · rw [hpen]
      simp only
      rw [lookup_penalize_map, hf]
      simp [hmem']
    · rw [hpen]
      simp only
      rw [lookup_penalize_filterMap _ _ _ _ hmem, hf]
      rfl
  · intro hmem
    have hmem' : f ∉ dedupKeepFirst []
        (issues.flatMap (drugAffectedFields (field_scores.map (·.1)))) := by
      simpa using hmem
    rw [hpen]
    simp only
    rw [lookup_penalize_map, hf]
    simp [hmem']
  · rintro ⟨iss, hiss, haff⟩
    have hfk : f ∈ field_scores.map (·.1) := lookup_some_mem_keys hf
    have : f ∈ dedupKeepFirst []
        (issues.flatMap (drugAffectedFields (field_scores.map (·.1)))) := by
      rw [mem_dedupKeepFirst]
      refine ⟨List.mem_flatMap.mpr ⟨iss, hiss, ?_⟩, by simp⟩
      rw [haff]
      exact hfk
    simpa using this
  · intro h7
    rw [hpen]
    simp only
    have h7q : (7 : ℚ) ≤ (issues.length : ℚ) := by exact_mod_cast h7
    rw [min_eq_right (by linarith)]
  · intro a hdir hassoc hcomp hdrug
    have hval : validate_drug_dependencies a =
        ["Direction of effect requires 'Associated with' status"] := by
      rw [validate_drug_dependencies]
      rw [if_pos ⟨hdir, hassoc⟩, if_neg hcomp, if_neg hdrug]
      rfl
    refine ⟨hval, ?_, ?_⟩
    · rw [hval, applyDrugPenalties, if_neg (by simp)]
      simp only [List.length_cons, List.length_nil]
      norm_num
    · with_unfolding_all rfl
  · intro hmem
    have hmem' : f ∈ dedupKeepFirst []
        (issues.flatMap (faAffectedFields (field_scores.map (·.1)))) := by
      simpa using hmem
    constructor
    · rw [hfapen]
      simp only
      rw [lookup_penalize_map, hf]
      simp [hmem']
    · rw [hfapen]
      simp only
      rw [lookup_penalize_filterMap _ _ _ _ hmem, hf]
      rfl
  · intro hmem
    have hmem' : f ∉ dedupKeepFirst []
        (issues.flatMap (faAffectedFields (field_scores.map (·.1)))) := by
      simpa using hmem
    rw [hfapen]
    simp only
    rw [lookup_penalize_map, hf]
    simp [hmem']
  · rintro ⟨iss, hiss, haff⟩
    have hfk : f ∈ field_scores.map (·.1) := lookup_some_mem_keys hf
    have : f ∈ dedupKeepFirst []
        (issues.flatMap (faAffectedFields (field_scores.map (·.1)))) := by
      rw [mem_dedupKeepFirst]
      refine ⟨List.mem_flatMap.mpr ⟨iss, hiss, ?_⟩, by simp⟩
      rw [haff]
      exact hfk
    simpa using this
  · intro h7
    rw [hfapen]
    simp only
    have h7q : (7 : ℚ) ≤ (issues.length : ℚ) := by exact_mod_cast h7
    rw [min_eq_right (by linarith)]
  · intro a hext hdir hassoc hgp hcomp hfun
    have hval : validate_all_dependencies a none =
        ["Direction of effect requires 'Associated with' status"] := by
      rw [validate_all_dependencies, hext, validate_field_dependencies]
      rw [if_neg hgp, if_neg hcomp, if_pos ⟨hdir, hassoc⟩, if_neg hfun]
      rfl
    refine ⟨hval, ?_, ?_⟩
    · rw [hval, applyFaPenalties, if_neg (by simp)]
      simp only [List.length_cons, List.length_nil]
      norm_num
    · with_unfolding_all rfl

/-- C6 (witness): the penalty theorem applied to a concrete score map and
the single-issue record, on both the drug and FA paths. -/
theorem C6_penalty_application_witness :
    (applyDrugPenalties
      [("Direction of effect", 1), ("Is/Is Not associated", 1), ("Gene", 1)]
      ["Direction of effect requires 'Associated with' status"]).2.total_penalty =
      min ((1 : ℚ) * (5 / 100)) (3 / 10) ∧
    validate_drug_dependencies
        { directionOfEffect := some "increased",
          isIsNotAssociated := some "not associated" } =
      ["Direction of effect requires 'Associated with' status"] ∧
    (applyFaPenalties
      [("Direction of effect", 1), ("Is/Is Not associated", 1), ("Gene", 1)]
      ["Direction of effect requires 'Associated with' status"]).2.total_penalty =
      min ((1 : ℚ) * (5 / 100)) (3 / 10) ∧
    validate_all_dependencies
        { directionOfEffect := some "increased",
          isIsNotAssociated := some "not associated" } none =
      ["Direction of effect requires 'Associated with' status"] := by
  have h := C6_penalty_application
    [("Direction of effect", 1), ("Is/Is Not associated", 1), ("Gene", 1)]
    ["Direction of effect requires 'Associated with' status"]
    (by simp) "Gene" 1 (by with_unfolding_all rfl)
  refine ⟨by simpa using h.1, ?_, by simpa using h.2.2.2.2.2.2.1, ?_⟩
  · exact (h.2.2.2.2.2.1
      { directionOfEffect := some "increased", isIsNotAssociated := some "not associated" }
      (by with_unfolding_all rfl) (by simp) (by simp [truthy]) (by simp [truthy])).1
  · exact (h.2.2.2.2.2.2.2.2.2.2.2
      { directionOfEffect := some "increased", isIsNotAssociated := some "not associated" }
      (by with_unfolding_all rfl) (by with_unfolding_all rfl) (by simp)
      (by simp [truthy]) (by simp [truthy]) (by simp [truthy])).1

/-! ## Claim C7: resolved-identifier priority -/

/-- C7 (confirmed): when a ground-truth record carries a truthy resolved
variant id and some still-unclaimed prediction entry carries the same id,
both aligners' match steps return exactly the tier-1 search result — the
first unclaimed entry with that id, regardless of the raw variant texts —
and the rsID/substring tiers are never consulted for that record. -/
theorem C7_resolved_id_priority (pi : List (ℕ × PredEntry)) (claimed : List ℕ)
    (gt_rec : Ann) (v : String)
    (hid : get_normalized_variant_id gt_rec = some v) (hv : v ≠ "")
    (hex : ∃ ie ∈ pi, claimed.contains ie.1 = false ∧ ie.2.variantId = some v) :
    matchStepDrug pi claimed gt_rec = findUnclaimed pi claimed (tier1Cond v) ∧
    matchStepPheno pi claimed gt_rec = findUnclaimed pi claimed (tier1Cond v) ∧
    ∃ ie, findUnclaimed pi claimed (tier1Cond v) = some ie ∧
      ie.2.variantId = some v ∧ claimed.contains ie.1 = false := by
  have hd : (gtVariantData gt_rec).2.2 = some v := hid
  have htr : truthy (gtVariantData gt_rec).2.2 = true := by
    rw [hd]
    simpa [truthy] using hv
  have hget : (gtVariantData gt_rec).2.2.getD "" = v := by
    rw [hd]
    rfl
  have hex' : ∃ ie ∈ pi, claimed.contains ie.1 = false ∧ tier1Cond v ie.2 = true := by
    obtain ⟨ie, hmem, hc, hvid⟩ := hex
    refine ⟨ie, hmem, hc, ?_⟩
    simp [tier1Cond, hvid, truthy, hv]
  obtain ⟨ie0, hie0⟩ := findUnclaimed_isSome hex'
  have hfound := findUnclaimed_eq_some hie0
  have hvid0 : ie0.2.variantId = some v := by
    have := hfound.2.1
    simp only [tier1Cond, Bool.and_eq_true, beq_iff_eq] at this
    exact this.2
  refine ⟨?_, ?_, ie0, hie0, hvid0, hfound.1⟩
  · simp only [matchStepDrug, htr, if_true, hget, hie0]
    rfl
  · simp only [matchStepPheno, htr, if_true, hget, hie0]
    rfl

/-- C7 (witness): the priority theorem applied to a one-entry prediction
index whose raw variant text shares nothing with the ground truth's. -/
theorem C7_resolved_id_priority_witness :
    matchStepDrug
        [(0, { variantId := some "VA123", rsids := ["rs1"], rawNorm := "rs1",
               record := { variantHaplotypes := some "rs1" } })] []
        { variantHaplotypes := some "completely different text",
          variantIdNorm := some "VA123" } =
      findUnclaimed
        [(0, { variantId := some "VA123", rsids := ["rs1"], rawNorm := "rs1",
               record := { variantHaplotypes := some "rs1" } })] []
        (tier1Cond "VA123") := by
  have h := C7_resolved_id_priority
    [(0, { variantId := some "VA123", rsids := ["rs1"], rawNorm := "rs1",
           record := { variantHaplotypes := some "rs1" } })] []
    { variantHaplotypes := some "completely different text",
      variantIdNorm := some "VA123" } "VA123"
    rfl (by simp)
    ⟨(0, { variantId := some "VA123", rsids := ["rs1"], rawNorm := "rs1",
           record := { variantHaplotypes := some "rs1" } }),
      by simp, by simp, rfl⟩
  exact h.1

/-! ## Claim C8: substring-containment direction in tier 3 -/

/-- C8 (counterexample): the claim that tier 3 accepts containment in
both directions is false for the drug/FA aligner: a prediction whose
normalized variant "ab" is contained in the ground truth's "abcd" is left
unmatched by `align_by_variant`, which tests only ground-truth-inside-
prediction. -/
theorem C8_drug_tier3_one_directional :
    (align_by_variant [{ variantHaplotypes := some "abcd" }]
        [{ variantHaplotypes := some "ab" }]).1 = [] ∧
    (align_by_variant [{ variantHaplotypes := some "abcd" }]
        [{ variantHaplotypes := some "ab" }]).2.2.2.1 =
      [{ variantHaplotypes := some "abcd" }] ∧
    strContains (pyLower (normalize_variant "ab")) (pyLower (normalize_variant "abcd")) = true := by
  refine ⟨?_, ?_, ?_⟩
  · with_unfolding_all rfl
  · with_unfolding_all rfl
  · with_unfolding_all rfl

/-- C8 (amended): for a ground-truth record that reaches tier 3 (no
resolved id, no rsIDs, non-empty normalized variant), the phenotype match
step searches with the bidirectional containment test while the drug/FA
match step searches with ground-truth-inside-prediction only; in
particular an unclaimed prediction whose normalized strings satisfy
either direction guarantees a phenotype tier-3 match. -/
theorem C8_tier3_directionality (pi : List (ℕ × PredEntry)) (claimed : List ℕ)
    (gt_rec : Ann)
    (hid : truthy (gtVariantData gt_rec).2.2 = false)
    (hrs : (gtVariantData gt_rec).2.1 = [])
    (hn : (gtVariantData gt_rec).1 ≠ "") :
    matchStepPheno pi claimed gt_rec =
      findUnclaimed pi claimed (phenoTier3Cond (gtVariantData gt_rec).1) ∧
    matchStepDrug pi claimed gt_rec =
      findUnclaimed pi claimed (drugTier3Cond (gtVariantData gt_rec).1) ∧
    (∀ e : PredEntry, phenoTier3Cond (gtVariantData gt_rec).1 e =
      (strContains (gtVariantData gt_rec).1 e.rawNorm ||
        strContains e.rawNorm (gtVariantData gt_rec).1)) ∧
    (∀ e : PredEntry, drugTier3Cond (gtVariantData gt_rec).1 e =
      strContains (gtVariantData gt_rec).1 e.rawNorm) ∧
    ((∃ ie ∈ pi, claimed.contains ie.1 = false ∧
        (strContains (gtVariantData gt_rec).1 ie.2.rawNorm ||
          strContains ie.2.rawNorm (gtVariantData gt_rec).1) = true) →
      (matchStepPheno pi claimed gt_rec).isSome = true) := by
  have h1 : matchStepPheno pi claimed gt_rec =
      findUnclaimed pi claimed (phenoTier3Cond (gtVariantData gt_rec).1) := by
    simp only [matchStepPheno, hid, Bool.false_eq_true, if_false, hrs,
      ne_eq, not_true_eq_false, if_pos hn]
    rfl
  have h2 : matchStepDrug pi claimed gt_rec =
      findUnclaimed pi claimed (drugTier3Cond (gtVariantData gt_rec).1) := by
    simp only [matchStepDrug, hid, Bool.false_eq_true, if_false, hrs,
      ne_eq, not_true_eq_false, if_pos hn]
    rfl
  refine ⟨h1, h2, fun e => rfl, fun e => rfl, ?_⟩
  · intro hex
    rw [h1]
    obtain ⟨ie, hmem, hc, hcond⟩ := hex
    obtain ⟨ie0, hie0⟩ :=
      @findUnclaimed_isSome pi claimed (phenoTier3Cond (gtVariantData gt_rec).1)
        ⟨ie, hmem, hc, hcond⟩
    rw [hie0]
    rfl

/-- C8 (witness): the directionality theorem applied at the reverse-
containment example; the phenotype step matches it. -/
theorem C8_tier3_directionality_witness :
    (matchStepPheno
        [(0, { variantId := none, rsids := [], rawNorm := "ab",
               record := { variantHaplotypes := some "ab" } })] []
        { variantHaplotypes := some "abcd" }).isSome = true := by
  have h := C8_tier3_directionality
    [(0, { variantId := none, rsids := [], rawNorm := "ab",
           record := { variantHaplotypes := some "ab" } })] []
    { variantHaplotypes := some "abcd" }
    (by with_unfolding_all rfl) (by with_unfolding_all rfl)
    (by with_unfolding_all decide)
  exact h.2.2.2.2
    ⟨(0, { variantId := none, rsids := [], rawNorm := "ab",
           record := { variantHaplotypes := some "ab" } }),
      by simp, by simp, by with_unfolding_all rfl⟩

/-! ## Claim C3: aligner output invariants -/

/-- C3 (counterexample): the multiset contract `aligned_gt ∪ unmatched_gt
= G` fails on duplicate ground-truth records, because unmatched records
are collected by value membership: two identical records with one
matching prediction yield one aligned and zero unmatched records, losing
a copy of `G`. -/
theorem C3_duplicate_gt_breaks_multiset :
    ((align_by_variant
        [{ variantHaplotypes := some "rs1" }, { variantHaplotypes := some "rs1" }]
        [{ variantHaplotypes := some "rs1" }]).1 ++
      (align_by_variant
        [{ variantHaplotypes := some "rs1" }, { variantHaplotypes := some "rs1" }]
        [{ variantHaplotypes := some "rs1" }]).2.2.2.1).length = 1 ∧
    (expand_annotations_by_variant
      [{ variantHaplotypes := some "rs1" }, { variantHaplotypes := some "rs1" }]).length = 2 ∧
    ¬ ((align_by_variant
        [{ variantHaplotypes := some "rs1" }, { variantHaplotypes := some "rs1" }]
        [{ variantHaplotypes := some "rs1" }]).1 ++
      (align_by_variant
        [{ variantHaplotypes := some "rs1" }, { variantHaplotypes := some "rs1" }]
        [{ variantHaplotypes := some "rs1" }]).2.2.2.1).Perm
      (expand_annotations_by_variant
        [{ variantHaplotypes := some "rs1" }, { variantHaplotypes := some "rs1" }]) := by
  have h1 : ((align_by_variant
      [{ variantHaplotypes := some "rs1" }, { variantHaplotypes := some "rs1" }]
      [{ variantHaplotypes := some "rs1" }]).1 ++
    (align_by_variant
      [{ variantHaplotypes := some "rs1" }, { variantHaplotypes := some "rs1" }]
      [{ variantHaplotypes := some "rs1" }]).2.2.2.1).length = 1 := by
    with_unfolding_all rfl
  have h2 : (expand_annotations_by_variant
      [{ variantHaplotypes := some "rs1" }, { variantHaplotypes := some "rs1" }]).length = 2 := by
    with_unfolding_all rfl
  refine ⟨h1, h2, fun hperm => ?_⟩
  have hl := hperm.length_eq
  rw [h1, h2] at hl
  exact absurd hl (by norm_num)

/-- C3 (amended): the outputs of the drug/FA aligner and of the phenotype
aligner (variant tiers plus Gene+Drug fallback pass) always satisfy
`|aligned_gt| = |aligned_pred| = |display_keys|` and no prediction index
is claimed by two pairs; and whenever the expanded ground-truth records
are pairwise distinct, `aligned_gt ++ unmatched_gt` is a permutation of
the expanded ground truth, for both aligners (with duplicated
ground-truth records the value-based unmatched collection can drop
copies). -/
theorem C3_alignment_invariants (gt pred : List Ann) :
    (align_by_variant gt pred).1.length = (align_by_variant gt pred).2.1.length ∧
    (align_by_variant gt pred).1.length = (align_by_variant gt pred).2.2.1.length ∧
    ((alignVariantPass matchStepDrug
        ((buildPredIndex (expand_annotations_by_variant pred)).enum)
        (expand_annotations_by_variant gt)).map (·.predIdx)).Nodup ∧
    ((expand_annotations_by_variant gt).Nodup →
      ((align_by_variant gt pred).1 ++ (align_by_variant gt pred).2.2.2.1).Perm
        (expand_annotations_by_variant gt)) ∧
    (align_pheno_annotations_by_variant gt pred).1.length =
      (align_pheno_annotations_by_variant gt pred).2.1.length ∧
    (align_pheno_annotations_by_variant gt pred).1.length =
      (align_pheno_annotations_by_variant gt pred).2.2.1.length ∧
    ((phenoAlignPairs gt pred).map (·.predIdx)).Nodup ∧
    ((expand_annotations_by_variant gt).Nodup →
      ((align_pheno_annotations_by_variant gt pred).1 ++
        (align_pheno_annotations_by_variant gt pred).2.2.2.1).Perm
        (expand_annotations_by_variant gt)) := by
  have hdef : align_by_variant gt pred =
      (let gts := expand_annotations_by_variant gt
       let pi := (buildPredIndex (expand_annotations_by_variant pred)).enum
       let pairs := alignVariantPass matchStepDrug pi gts
       (pairs.map (·.gtRec), pairs.map (·.predRec), pairs.map (·.key),
        gts.filter (fun r => !((pairs.map (·.gtRec)).contains r)),
        (pi.filter (fun ie => !((pairs.map (·.predIdx)).contains ie.1))).map (·.2.record))) :=
    rfl
  have hphdef : align_pheno_annotations_by_variant gt pred =
      (let gts := expand_annotations_by_variant gt
       let pi := (buildPredIndex (expand_annotations_by_variant pred)).enum
       let pairs := phenoAlignPairs gt pred
       (pairs.map (·.gtRec), pairs.map (·.predRec), pairs.map (·.key),
        gts.filter (fun r => !((pairs.map (·.gtRec)).contains r)),
        (pi.filter (fun ie => !((pairs.map (·.predIdx)).contains ie.1))).map (·.2.record))) :=
    rfl
  have hphpairs : phenoAlignPairs gt pred =
      (expand_annotations_by_variant gt).foldl
        (phenoFallbackStep ((buildPredIndex (expand_annotations_by_variant pred)).enum))
        (alignVariantPass matchStepPheno
          ((buildPredIndex (expand_annotations_by_variant pred)).enum)
          (expand_annotations_by_variant gt)) := rfl
  refine ⟨?_, ?_, ?_, ?_, ?_, ?_, ?_, ?_⟩
  · rw [hdef]
    simp
  · rw [hdef]
    simp
  · exact alignGo_nodup matchStepDrug _
      (fun claimed g ie h => matchStepDrug_unclaimed h)
      (expand_annotations_by_variant gt) [] (by simp)
  · intro hnd
    rw [hdef]
    simp only
    obtain ⟨t, ht, hs⟩ := alignGo_gtRec_decomp matchStepDrug
      ((buildPredIndex (expand_annotations_by_variant pred)).enum)
      (expand_annotations_by_variant gt) []
    have ht' : (alignVariantPass matchStepDrug
        ((buildPredIndex (expand_annotations_by_variant pred)).enum)
        (expand_annotations_by_variant gt)).map (·.gtRec) = t := by
      simpa [alignVariantPass] using ht
    rw [ht']
    exact sublist_append_filter_perm hs hnd
  · rw [hphdef]
    simp
  · rw [hphdef]
    simp
  · rw [hphpairs]
    exact phenoFold_nodup_idx _ _ _
      (alignGo_nodup matchStepPheno _
        (fun claimed g ie h => matchStepPheno_unclaimed h)
        (expand_annotations_by_variant gt) [] (by simp))
  · intro hnd
    rw [hphdef]
    simp only
    obtain ⟨t, ht, hs⟩ := alignGo_gtRec_decomp matchStepPheno
      ((buildPredIndex (expand_annotations_by_variant pred)).enum)
      (expand_annotations_by_variant gt) []
    have ht1 : (alignVariantPass matchStepPheno
        ((buildPredIndex (expand_annotations_by_variant pred)).enum)
        (expand_annotations_by_variant gt)).map (·.gtRec) = t := by
      simpa [alignVariantPass] using ht
    have h1nodup : ((alignVariantPass matchStepPheno
        ((buildPredIndex (expand_annotations_by_variant pred)).enum)
        (expand_annotations_by_variant gt)).map (·.gtRec)).Nodup := by
      rw [ht1]
      exact List.Nodup.sublist hs hnd
    have h1sub : ∀ x ∈ (alignVariantPass matchStepPheno
        ((buildPredIndex (expand_annotations_by_variant pred)).enum)
        (expand_annotations_by_variant gt)).map (·.gtRec),
        x ∈ expand_annotations_by_variant gt := by
      rw [ht1]
      exact fun x hx => hs.subset hx
    have hFnodup : ((phenoAlignPairs gt pred).map (·.gtRec)).Nodup := by
      rw [hphpairs]
      exact phenoFold_nodup_gtRec _ _ _ h1nodup
    have hFsub : ∀ x ∈ (phenoAlignPairs gt pred).map (·.gtRec),
        x ∈ expand_annotations_by_variant gt := by
      rw [hphpairs]
      exact phenoFold_gtRec_subset _ _ _ _ h1sub (fun g hgm => hgm)
    exact nodup_subset_filter_perm _ _ hFnodup hFsub hnd

/-- C3 (witness): the invariants theorem applied at a concrete
duplicate-free input pair. -/
theorem C3_alignment_invariants_witness :
    ((align_by_variant [{ variantHaplotypes := some "rs1" }]
        [{ variantHaplotypes := some "rs1" }]).1 ++
      (align_by_variant [{ variantHaplotypes := some "rs1" }]
        [{ variantHaplotypes := some "rs1" }]).2.2.2.1).Perm
      (expand_annotations_by_variant [{ variantHaplotypes := some "rs1" }]) ∧
    ((align_pheno_annotations_by_variant [{ variantHaplotypes := some "rs1" }]
        [{ variantHaplotypes := some "rs1" }]).1 ++
      (align_pheno_annotations_by_variant [{ variantHaplotypes := some "rs1" }]
        [{ variantHaplotypes := some "rs1" }]).2.2.2.1).Perm
      (expand_annotations_by_variant [{ variantHaplotypes := some "rs1" }]) := by
  have h := C3_alignment_invariants [{ variantHaplotypes := some "rs1" }]
    [{ variantHaplotypes := some "rs1" }]
  exact ⟨h.2.2.2.1 (by with_unfolding_all decide),
    h.2.2.2.2.2.2.2 (by with_unfolding_all decide)⟩

/-! ## Claim C4: zero-aligned results and status flags -/

/-- C4 (counterexample): the claim that every zero-aligned evaluation
carries a status flag distinguishing missing input from no overlap is
false: the phenotype evaluator's empty-input return (both lists empty
included) has no status key at all — only its no-overlap path sets one,
and the drug evaluator never sets one. -/
theorem C4_empty_input_has_no_status :
    (pheno_evaluate (fun _ _ => some 0) [] [] none (3 / 10)).status = none ∧
    (pheno_evaluate (fun _ _ => some 0) [] [] none (3 / 10)).overall_score = 0 ∧
    (pheno_evaluate (fun _ _ => some 0) [] [] none (3 / 10)).field_scores = [] ∧
    (evaluate_drug_annotations (fun _ _ => some 0)
        [{ variantHaplotypes := some "aaaa" }] [{ variantHaplotypes := some "bbbb" }]
        none).status = none := by
  refine ⟨?_, ?_, ?_, ?_⟩
  · with_unfolding_all rfl
  · with_unfolding_all rfl
  · with_unfolding_all rfl
  · with_unfolding_all rfl

/-- C4 (amended): every zero-aligned evaluation returns overall_score 0.0
and an empty field-score map; but only the phenotype no-overlap path
carries a status flag ("no_overlap_after_alignment") — the phenotype
empty-input path and every drug zero-aligned path return no status key. -/
theorem C4_degenerate_results (cos : String → String → Option ℚ)
    (w : Option (List (String × ℚ))) (thr : ℚ) :
    (∀ gt pred : List Ann, gt = [] ∨ pred = [] →
      (pheno_evaluate cos gt pred w thr).total_samples = 0 ∧
      (pheno_evaluate cos gt pred w thr).field_scores = [] ∧
      (pheno_evaluate cos gt pred w thr).overall_score = 0 ∧
      (pheno_evaluate cos gt pred w thr).status = none) ∧
    (∀ gt pred : List Ann, ¬ (gt = [] ∨ pred = []) →
      (align_pheno_annotations_by_variant gt pred).1 = [] →
      (pheno_evaluate cos gt pred w thr).status = some "no_overlap_after_alignment" ∧
      (pheno_evaluate cos gt pred w thr).field_scores = [] ∧
      (pheno_evaluate cos gt pred w thr).overall_score = 0) ∧
    (∀ gt pred : List Ann, (align_by_variant gt pred).1 = [] →
      (evaluate_drug_annotations cos gt pred w).status = none ∧
      (evaluate_drug_annotations cos gt pred w).field_scores = [] ∧
      (evaluate_drug_annotations cos gt pred w).overall_score = 0 ∧
      (evaluate_drug_annotations cos gt pred w).total_samples = 0) := by
  refine ⟨?_, ?_, ?_⟩
  · intro gt pred h
    rw [pheno_evaluate, if_pos h]
    exact ⟨rfl, rfl, rfl, rfl⟩
  · intro gt pred h halign
    rw [pheno_evaluate, if_neg h]
    simp only
    rw [if_pos halign]
    exact ⟨rfl, rfl, rfl⟩
  · intro gt pred halign
    rw [evaluate_drug_annotations]
    simp only
    rw [if_pos halign]
    exact ⟨rfl, rfl, rfl, rfl⟩

/-- C4 (witness): the degenerate-result theorem applied at the empty
input pair and at a concrete no-overlap pair. -/
theorem C4_degenerate_results_witness :
    (pheno_evaluate (fun _ _ => some 0) [] [] none (3 / 10)).total_samples = 0 ∧
    (pheno_evaluate (fun _ _ => some 0) [{ variantHaplotypes := some "aaaa" }]
        [{ variantHaplotypes := some "bbbb" }] none (3 / 10)).status =
      some "no_overlap_after_alignment" ∧
    (evaluate_drug_annotations (fun _ _ => some 0) [{ variantHaplotypes := some "aaaa" }]
        [{ variantHaplotypes := some "bbbb" }] none).status = none := by
  have h := C4_degenerate_results (fun _ _ => some 0) none (3 / 10)
  refine ⟨(h.1 [] [] (Or.inl rfl)).1, ?_, ?_⟩
  · exact (h.2.1 [{ variantHaplotypes := some "aaaa" }] [{ variantHaplotypes := some "bbbb" }]
      (by simp) (by with_unfolding_all rfl)).1
  · exact (h.2.2 [{ variantHaplotypes := some "aaaa" }] [{ variantHaplotypes := some "bbbb" }]
      (by with_unfolding_all rfl)).1

/-! ## Claim C5: per-field aggregation and total_samples -/

/-- Ground-truth record for the C5 counterexample: aligned by rsID with
`c5PredExample` but scoring 1/12 < 0.3 on the weighted field comparison
(only the variant field agrees). -/
def c5GtExample : Ann :=
  { variantHaplotypes := some "rs7", gene := some "aa", drugs := some "da",
    phenotypeCategory := some "pa", alleles := some "la",
    isIsNotAssociated := some "ia", directionOfEffect := some "ea",
    phenotype := some "ha", whenTreatedWith := some "wa",
    comparisonAlleles := some "ca" }

/-- Prediction record for the C5 counterexample. -/
def c5PredExample : Ann :=
  { variantHaplotypes := some "rs7", gene := some "bb", drugs := some "db",
    phenotypeCategory := some "pb", alleles := some "lb",
    isIsNotAssociated := some "ib", directionOfEffect := some "eb",
    phenotype := some "hb", whenTreatedWith := some "wb",
    comparisonAlleles := some "cb" }

set_option maxRecDepth 100000 in
/-- C5 (counterexample): in the phenotype evaluator the aggregation runs
over the threshold-filtered matched pairs, not over the aligned pairs:
an evaluation with one aligned pair whose weighted comparison score
(1/12) falls below the 0.3 matching threshold ends with total_samples 0
and empty per-field score lists, not 1 = aligned + unmatched as the claim
requires. -/
theorem C5_pheno_counts_matched_not_aligned :
    (align_pheno_annotations_by_variant [c5GtExample] [c5PredExample]).1.length = 1 ∧
    (align_pheno_annotations_by_variant [c5GtExample] [c5PredExample]).2.2.2.1.length = 0 ∧
    (pheno_evaluate (fun _ _ => some 0) [c5GtExample] [c5PredExample] none
      (3 / 10)).total_samples = 0 ∧
    ((pheno_evaluate (fun _ _ => some 0) [c5GtExample] [c5PredExample] none
      (3 / 10)).field_scores.lookup "Gene") = some { mean_score := 0, scores := [] } ∧
    (0 : ℕ) ≠ 1 + 0 := by
  refine ⟨?_, ?_, ?_, ?_, by norm_num⟩
  · with_unfolding_all rfl
  · with_unfolding_all rfl
  · with_unfolding_all rfl
  · with_unfolding_all rfl

/-- Per-field score list of the drug evaluator: the per-pair penalized
scores followed by the zero padding for unmatched ground truth. -/
def drugFieldScoresOf (cos : String → String → Option ℚ)
    (gt pred : List Ann) (f : String) : List ℚ :=
  (((align_by_variant gt pred).1.zip (align_by_variant gt pred).2.1).enum.map
      (fun ip => drugSample cos ip.1 ip.2.1 ip.2.2)).map
    (fun s => (s.field_scores.lookup f).getD 0) ++
    List.replicate (align_by_variant gt pred).2.2.2.1.length 0

/-- Shape of the drug evaluator's result when at least one pair aligns. -/
theorem evaluate_drug_nonempty (cos : String → String → Option ℚ)
    (gt pred : List Ann) (w : Option (List (String × ℚ)))
    (h : ¬ (align_by_variant gt pred).1 = []) :
    evaluate_drug_annotations cos gt pred w =
      { total_samples := (align_by_variant gt pred).1.length +
          (align_by_variant gt pred).2.2.2.1.length,
        field_scores := ((drug_field_evaluators cos).map (·.1) ++ ["Drug(s)"]).map (fun f =>
          (f, { mean_score := (drugFieldScoresOf cos gt pred f).sum /
                  ((drugFieldScoresOf cos gt pred f).length : ℚ),
                scores := drugFieldScoresOf cos gt pred f })),
        overall_score := compute_weighted_score
          ((((drug_field_evaluators cos).map (·.1) ++ ["Drug(s)"]).map (fun f =>
            ((f, { mean_score := (drugFieldScoresOf cos gt pred f).sum /
                    ((drugFieldScoresOf cos gt pred f).length : ℚ),
                   scores := drugFieldScoresOf cos gt pred f }) : String × FieldEntry))).map
            (fun fe => (fe.1, fe.2.mean_score))) w,
        detailed_results := ((align_by_variant gt pred).1.zip
          (align_by_variant gt pred).2.1).enum.map
            (fun ip => drugSample cos ip.1 ip.2.1 ip.2.2),
        aligned_variants := some (align_by_variant gt pred).2.2.1,
        unmatched_ground_truth := some (align_by_variant gt pred).2.2.2.1,
        unmatched_predictions := some (align_by_variant gt pred).2.2.2.2 } := by
  rw [evaluate_drug_annotations]
  simp only
  rw [if_neg h]
  rfl

/-- C5 (amended): for the drug evaluator, whenever at least one pair
aligns, every field's score list is the per-pair penalized scores (in
pair order) followed by one 0.0 per unmatched ground-truth record, its
mean is the arithmetic mean of that list, total_samples is the aligned
count plus the unmatched-ground-truth count, and every schema field has
such an entry; the phenotype evaluator applies the same aggregation to
its threshold-filtered matched pairs, so its total_samples is the
matched-pair count plus the unmatched-ground-truth count. -/
theorem C5_field_score_aggregation (cos : String → String → Option ℚ)
    (gt pred : List Ann) (w : Option (List (String × ℚ)))
    (h : ¬ (align_by_variant gt pred).1 = []) :
    (evaluate_drug_annotations cos gt pred w).total_samples =
      (align_by_variant gt pred).1.length + (align_by_variant gt pred).2.2.2.1.length ∧
    (∀ f entry,
      (evaluate_drug_annotations cos gt pred w).field_scores.lookup f = some entry →
      entry.scores =
        ((((align_by_variant gt pred).1.zip (align_by_variant gt pred).2.1).enum.map
            (fun ip => drugSample cos ip.1 ip.2.1 ip.2.2)).map
          (fun s => (s.field_scores.lookup f).getD 0)) ++
          List.replicate (align_by_variant gt pred).2.2.2.1.length 0 ∧
      entry.mean_score = entry.scores.sum / ((entry.scores.length : ℕ) : ℚ)) ∧
    (∀ f, f ∈ (drug_field_evaluators cos).map (·.1) ++ ["Drug(s)"] →
      ((evaluate_drug_annotations cos gt pred w).field_scores.lookup f).isSome = true) ∧
    (∀ gt2 pred2 : List Ann, ∀ thr : ℚ, ¬ (gt2 = [] ∨ pred2 = []) →
      ¬ (align_pheno_annotations_by_variant gt2 pred2).1 = [] →
      (pheno_evaluate cos gt2 pred2 w thr).total_samples =
        (greedyAssign (find_best_matches cos
            (align_pheno_annotations_by_variant gt2 pred2).2.1
            (align_pheno_annotations_by_variant gt2 pred2).1
            (w.getD DEFAULT_FIELD_WEIGHTS) thr)).length +
          (align_pheno_annotations_by_variant gt2 pred2).2.2.2.1.length) := by
  have hres := evaluate_drug_nonempty cos gt pred w h
  refine ⟨by rw [hres], ?_, ?_, ?_⟩
  · intro f entry hlook
    rw [hres] at hlook
    simp only at hlook
    rw [lookup_map_graph] at hlook
    by_cases hf : f ∈ (drug_field_evaluators cos).map (·.1) ++ ["Drug(s)"]
    · rw [if_pos hf] at hlook
      have hentry := Option.some.inj hlook
      subst hentry
      exact ⟨rfl, rfl⟩
    · rw [if_neg hf] at hlook
      exact absurd hlook (by simp)
  · intro f hf
    rw [hres]
    simp only
    rw [lookup_map_graph, if_pos hf]
    rfl
  · intro gt2 pred2 thr h1 h2
    rw [pheno_evaluate, if_neg h1]
    simp only
    rw [if_neg h2]

/-- C5 (witness): the aggregation theorem applied at a concrete
single-pair input. -/
theorem C5_field_score_aggregation_witness :
    (evaluate_drug_annotations (fun _ _ => some 0)
        [{ variantHaplotypes := some "rs1" }] [{ variantHaplotypes := some "rs1" }]
        none).total_samples =
      (align_by_variant [{ variantHaplotypes := some "rs1" }]
          [{ variantHaplotypes := some "rs1" }]).1.length +
        (align_by_variant [{ variantHaplotypes := some "rs1" }]
          [{ variantHaplotypes := some "rs1" }]).2.2.2.1.length := by
  exact (C5_field_score_aggregation (fun _ _ => some 0)
    [{ variantHaplotypes := some "rs1" }] [{ variantHaplotypes := some "rs1" }] none
    (by with_unfolding_all decide)).1

end AutoGKB
